import Mathlib

/-!
Shallow embedding of the weaPro ingestion scripts (7_weaviate/...), covering the
token-bounded batch accumulator, its flush/retry/failure-logging policies, the
parent-hierarchy extraction, and the two-phase article/chunk loaders.

The external vector-database sink is modelled as data: each bulk-insert call
receives an outcome (completed, possibly with a list of per-object failures,
or a raised exception message) supplied by a `sink` function.  Console printing
and sleeping are modelled only where observable (slept delays are recorded).
-/

namespace WeaPro

/-! ### Python string builtins, embedded structurally over `List Char`
so that concrete runs reduce in the kernel. -/

/-- Python `s.split(sep)` for a single-character separator, on the character
list: always returns at least one segment, and one extra segment per
occurrence of the separator. -/
def charlist_split_on (sep : Char) : List Char → List (List Char)
  | [] => [[]]
  | c :: cs =>
      let rest := charlist_split_on sep cs
      if c = sep then [] :: rest
      else match rest with
        | [] => [[c]]
        | r :: rs => (c :: r) :: rs

/-- Whether the first list is a leading segment of the second. -/
def charlist_leading : List Char → List Char → Bool
  | [], _ => true
  | _ :: _, [] => false
  | p :: ps, c :: cs => p = c && charlist_leading ps cs

/-- Python `s.startswith(pat)`. -/
def py_startswith (s pat : String) : Bool :=
  charlist_leading pat.data s.data

/-- Digit-string parsing: `some n` exactly on a nonempty all-digit list,
mirroring Python `int` on the decimal strings that occur as `parent_N`
suffixes (Python raises on anything else; callers only reach this on
all-digit segments). -/
def digits_to_nat? : List Char → Option Nat
  | [] => none
  | l => l.foldl (fun acc c =>
      match acc with
      | none => none
      | some n => if c.isDigit then some (n * 10 + (c.toNat - '0'.toNat)) else none)
      (some 0)

/-- Python `int(s)` on nonnegative decimal strings. -/
def py_int? (s : String) : Option Nat := digits_to_nat? s.data

/-- Drop whitespace from both ends of a character list. -/
def charlist_trim (l : List Char) : List Char :=
  ((l.dropWhile Char.isWhitespace).reverse.dropWhile Char.isWhitespace).reverse

/-- Python `s.strip()`. -/
def py_strip (s : String) : String := String.mk (charlist_trim s.data)

/-- ASCII lowering of one character, as Python `str.lower` acts on the ASCII
error messages matched by the loaders. -/
def py_lower_char (c : Char) : Char :=
  if 'A' ≤ c ∧ c ≤ 'Z' then Char.ofNat (c.toNat + 32) else c

/-- Python `s.lower()`. -/
def py_lower (s : String) : String := String.mk (s.data.map py_lower_char)

/-- Whether `pat` occurs as a contiguous segment of the list. -/
def charlist_contains_sub (pat : List Char) : List Char → Bool
  | [] => charlist_leading pat []
  | c :: cs => charlist_leading pat (c :: cs) || charlist_contains_sub pat cs

/-- Python `pat in s` on strings. -/
def py_in (pat s : String) : Bool := charlist_contains_sub pat.data s.data

/-- Embeds `approx_tokens` (identical in batchAddStateCollection.py:19-21,
mx/addToCollection.py:11-13, batchAddStateCollectionOllamaV2.py:18-20):
`max(1, len(text) // 4)`. -/
def approx_tokens (text : String) : Nat :=
  max 1 (text.length / 4)

/-- A chunk object from a JSONL line: the fields read by the loaders
(`chunk.get('content', '')`, `chunk.get('priorContent', '')`). -/
structure Chunk where
  content : String
  priorContent : String
deriving DecidableEq

/-- The properties dict built for one chunk by the state-collection scripts
(batchAddStateCollection.py:108-115, OllamaV2 create_chunk_properties:73-80). -/
structure StProps where
  content : String
  priorContent : String
  contentAndPriorConcatenated : String
  article : String
  fromArticle : List String
  document : String
deriving DecidableEq

/-- A per-object failure as exposed by the sink's batch context
(`collection.batch.failed_objects`: a message and the failed object's
properties). -/
structure FailedObject where
  message : String
  properties : StProps
deriving DecidableEq

/-- Outcome of one `with collection.batch.dynamic()` bulk-insert call:
the context either completes (exposing a possibly empty list of failed
objects) or raises an exception with a message. -/
inductive BatchOutcome where
  | completed (failed_objects : List FailedObject)
  | exception (msg : String)
deriving DecidableEq

/-! ### Model of 7_weaviate/us/state/batchAddStateCollection.py -/

/-- The `MAX_BATCH_TOKENS` constant of batchAddStateCollection.py:6. -/
def MAX_BATCH_TOKENS_STATE : Nat := 136000

/-- One entry of the failure log written by `append_failed_chunk`
(batchAddStateCollection.py:74-78): dict keys error/properties/batch_number. -/
structure StFailEntry where
  error : String
  properties : StProps
  batch_number : Nat
deriving DecidableEq

/-- The mutable state of the state-collection script: the statistics counters
(lines 37-40), the batch accumulator (lines 48-49), plus two observable
traces: `flushed` records each list of objects handed to the sink's bulk
insert, and `failure_log` the contents of the failed-chunks JSONL file. -/
structure StateSt where
  processed : Nat
  imported : Nat
  failed : Nat
  batches : Nat
  current_batch : List StProps
  current_tokens : Nat
  flushed : List (List StProps)
  failure_log : List StFailEntry
deriving DecidableEq

/-- Initial state of the state-collection script. -/
def StateSt.init : StateSt :=
  { processed := 0, imported := 0, failed := 0, batches := 0,
    current_batch := [], current_tokens := 0, flushed := [], failure_log := [] }

/-- Embeds `send_batch` (batchAddStateCollection.py:51-78).  `sink b` is the
outcome of the bulk-insert call for batch number `b`.  The empty guard
(line 55-56) returns without contacting the sink; otherwise the batch is
handed to the sink (recorded in `flushed`); a completed context counts the
whole batch as imported (the partial-failure report is never inspected);
an exception counts the whole batch as failed and logs every object. -/
def state_send_batch (sink : Nat → BatchOutcome) (batch_objects : List StProps)
    (st : StateSt) : StateSt :=
  if batch_objects = [] then st
  else
    let batches := st.batches + 1
    let batch_size := batch_objects.length
    let st := { st with batches := batches, flushed := st.flushed ++ [batch_objects] }
    match sink batches with
    | .completed _ => { st with imported := st.imported + batch_size }
    | .exception e =>
        { st with failed := st.failed + batch_size,
                  failure_log := st.failure_log ++
                    batch_objects.map (fun obj => ⟨e, obj, batches⟩) }

/-- Embeds the accumulator branch of the chunk loop
(batchAddStateCollection.py:119-143), taking the already built `properties`
and its `chunk_tokens` exactly as the three-way branch receives them. -/
def state_accum (sink : Nat → BatchOutcome) (properties : StProps)
    (chunk_tokens : Nat) (st : StateSt) : StateSt :=
  if chunk_tokens > MAX_BATCH_TOKENS_STATE then
    let st :=
      if st.current_batch ≠ [] then
        let st := state_send_batch sink st.current_batch st
        { st with current_batch := [], current_tokens := 0 }
      else st
    state_send_batch sink [properties] st
  else if st.current_tokens + chunk_tokens > MAX_BATCH_TOKENS_STATE then
    let st := state_send_batch sink st.current_batch st
    { st with current_batch := [properties], current_tokens := chunk_tokens }
  else
    { st with current_batch := st.current_batch ++ [properties],
              current_tokens := st.current_tokens + chunk_tokens }

/-- Embeds the per-chunk body of the loop (batchAddStateCollection.py:99-143):
build the properties dict (lines 100-115), count the chunk as processed
(line 117), then accumulate by `approx_tokens content` (line 105). -/
def state_step (sink : Nat → BatchOutcome) (article : String)
    (from_article : List String) (document : String)
    (st : StateSt) (chunk : Chunk) : StateSt :=
  let content := chunk.content
  let prior_content := chunk.priorContent
  let properties : StProps :=
    { content := content, priorContent := prior_content,
      contentAndPriorConcatenated := py_strip (prior_content ++ " " ++ content),
      article := article, fromArticle := from_article, document := document }
  let chunk_tokens := approx_tokens content
  let st := { st with processed := st.processed + 1 }
  state_accum sink properties chunk_tokens st

/-! ### Parent-hierarchy extraction (batchAddStateCollection.py:87-95,
OllamaV2 extract_parent_info:38-55 — identical logic) -/

/-- Stable insert of `x` into `l` by ascending `key`: `x` goes after every
element with an equal or smaller key.  Building block for
`python_sorted_by_key`. -/
def stable_insert_by_key (key : String → Nat) (x : String) : List String → List String
  | [] => [x]
  | y :: ys => if key x < key y then x :: y :: ys else y :: stable_insert_by_key key x ys

/-- Python's `sorted(l, key=key)`: ascending and stable (elements with equal
keys keep their original relative order). -/
def python_sorted_by_key (key : String → Nat) (l : List String) : List String :=
  l.foldl (fun acc x => stable_insert_by_key key x acc) []

/-- The sort key `int(x.split('_')[1])` of the parent-key sort
(batchAddStateCollection.py:89).  Python raises on a non-numeric segment;
the loaded lines only carry keys of the form `parent_<digits>`, so the
`getD 0` defaults are never exercised on the inputs we reason about. -/
def parent_sort_key (k : String) : Nat :=
  (py_int? (((charlist_split_on '_' k.data).map String.mk).getD 1 "")).getD 0

/-- Python's `data.get(k, default)` over a JSON object modelled as an
association list of its string-valued fields. -/
def dict_get (data : List (String × String)) (k : String) (default : String) : String :=
  (((data.find? (fun kv => kv.fst == k)).map Prod.snd)).getD default

/-- Embeds `extract_parent_info` (OllamaV2:38-55), which is also inlined at
batchAddStateCollection.py:87-95: collect the keys starting with `parent_`,
sort them by the numeric value after the underscore, take the value of the
last key as `article` and the values of all keys but the first as
`fromArticle`. -/
def extract_parent_info (data : List (String × String)) : String × List String :=
  let parent_keys :=
    python_sorted_by_key parent_sort_key
      ((data.map Prod.fst).filter (fun k => py_startswith k "parent_"))
  let article :=
    match parent_keys.getLast? with
    | some k => dict_get data k ""
    | none => ""
  let from_article :=
    if parent_keys.length > 1 then
      (parent_keys.drop 1).map (fun k => dict_get data k "")
    else []
  (article, from_article)

/-- The data of one parsed JSONL line as the loaders consume it: its
string-valued fields (the `parent_N` keys among them) and its `chunks`
list. -/
structure LineData where
  fields : List (String × String)
  chunks : List Chunk
deriving DecidableEq

/-- Embeds the body of the line loop (batchAddStateCollection.py:82-155):
a line is either a parse error (`none`, skipped by the
`json.JSONDecodeError` handler) or parsed data whose chunks are each
processed by `state_step` under the line's extracted parent info. -/
def state_process_line (sink : Nat → BatchOutcome) (document : String)
    (st : StateSt) (line : Option LineData) : StateSt :=
  match line with
  | none => st
  | some data =>
      let pa := extract_parent_info data.fields
      data.chunks.foldl (state_step sink pa.fst pa.snd document) st

/-- Embeds the whole run of batchAddStateCollection.py (lines 80-159):
process every line, then send any remaining chunks in the final batch. -/
def state_run (sink : Nat → BatchOutcome) (document : String)
    (lines : List (Option LineData)) : StateSt :=
  let st := lines.foldl (state_process_line sink document) StateSt.init
  if st.current_batch ≠ [] then state_send_batch sink st.current_batch st else st

/-! ### Model of 7_weaviate/mx/addToCollection.py -/

/-- The `MAX_BATCH_TOKENS` constant of mx/addToCollection.py:8. -/
def MAX_BATCH_TOKENS_MX : Nat := 120000

/-- The `retry_delay` default of `insert_batch_with_retry`
(mx/addToCollection.py:89): 60 seconds. -/
def default_retry_delay : Nat := 60

/-- A paragraph object of an mx JSON document: the fields read by
`create_chunk_object` (mx/addToCollection.py:58-67). -/
structure Paragraph where
  content : String
  priorContent : String
  name : String
  fromArticle : String
deriving DecidableEq

/-- The properties dict built by `create_chunk_object`
(mx/addToCollection.py:72-80). -/
structure MxProps where
  content : String
  priorContent : String
  contentAndPriorConcatenated : String
  article : String
  fromArticle : List String
  document : String
  tipo : String
deriving DecidableEq

/-- Embeds `create_chunk_object` (mx/addToCollection.py:50-85), returning
`(obj, article, token_count)`. -/
def create_chunk_object (paragraph : Paragraph) (document_name document_tipo : String)
    (only_content : Bool) : MxProps × String × Nat :=
  let content := paragraph.content
  let prior_content := paragraph.priorContent
  let article := if only_content then "" else paragraph.name
  let from_article := if only_content then "" else paragraph.fromArticle
  let content_and_prior := py_strip (prior_content ++ " " ++ content)
  let obj : MxProps :=
    { content := content, priorContent := prior_content,
      contentAndPriorConcatenated := content_and_prior,
      article := article,
      fromArticle := if from_article ≠ "" then [from_article] else [],
      document := document_name, tipo := document_tipo }
  (obj, article, approx_tokens content)

/-- The batch item dict built in `process_document`
(mx/addToCollection.py:170-178). -/
structure MxItem where
  obj : MxProps
  article : String
  token_count : Nat
  paragraph : Paragraph
  document_name : String
  document_tipo : String
  file_name : String
deriving DecidableEq

/-- A JSON value occurring in the mx failure-log dicts. -/
inductive PyVal where
  | s (v : String)
  | para (p : Paragraph)
deriving DecidableEq

/-- The `error_info` dict written per failed chunk after a failed retry
(mx/addToCollection.py:122-128), modelled as the literal key/value list of
the Python dict: its keys are exactly error/chunk/document/tipo/file. -/
def error_info (e : String) (item : MxItem) : List (String × PyVal) :=
  [("error", .s e), ("chunk", .para item.paragraph),
   ("document", .s item.document_name), ("tipo", .s item.document_tipo),
   ("file", .s item.file_name)]

/-- What one call of `insert_batch_with_retry` does, beyond its returned
`(chunks_inserted, chunks_failed)` pair: the failure-log entries appended,
the object lists handed to `insert_many` (one per attempt), and the delays
slept. -/
structure MxFlushResult where
  inserted : Nat
  failed : Nat
  log : List (List (String × PyVal))
  sink_batches : List (List MxProps)
  slept : List Nat
deriving DecidableEq

/-- Embeds `insert_batch_with_retry` (mx/addToCollection.py:88-133).
`sink i` is the outcome of the `i`-th `insert_many` call of the run
(`none` = success, `some e` = exception with message `e`); `calls` is the
number of calls made so far.  The `for attempt in range(2)` loop makes a
first attempt, and on exception sleeps `retry_delay` and retries once; a
second exception logs one `error_info` entry per batch item and reports the
whole batch as failed. -/
def insert_batch_with_retry (sink : Nat → Option String) (calls : Nat)
    (batch_items : List MxItem) (retry_delay : Nat) : MxFlushResult × Nat :=
  let batch_size := batch_items.length
  let objects := batch_items.map (fun item => item.obj)
  match sink calls with
  | none =>
      ({ inserted := batch_size, failed := 0, log := [],
         sink_batches := [objects], slept := [] }, calls + 1)
  | some _ =>
      match sink (calls + 1) with
      | none =>
          ({ inserted := batch_size, failed := 0, log := [],
             sink_batches := [objects, objects], slept := [retry_delay] }, calls + 2)
      | some e =>
          ({ inserted := 0, failed := batch_size,
             log := batch_items.map (fun item => error_info e item),
             sink_batches := [objects, objects], slept := [retry_delay] }, calls + 2)

/-- The running state of `process_document` (mx/addToCollection.py:136-219):
the two counters (lines 157-158), the accumulator (lines 160-161), the
number of `insert_many` calls made, and the observable traces. -/
structure MxDocSt where
  chunks_inserted : Nat
  chunks_failed : Nat
  current_batch : List MxItem
  current_batch_tokens : Nat
  calls : Nat
  log : List (List (String × PyVal))
  sink_batches : List (List MxProps)
  flushed_items : List (List MxItem)
  slept : List Nat
deriving DecidableEq

/-- Initial state of `process_document`. -/
def MxDocSt.init : MxDocSt :=
  { chunks_inserted := 0, chunks_failed := 0, current_batch := [],
    current_batch_tokens := 0, calls := 0, log := [], sink_batches := [],
    flushed_items := [], slept := [] }

/-- One `insert_batch_with_retry` call from `process_document`, with the
default retry delay (call sites at mx/addToCollection.py:183, 195, 203,
214), folding its result into the counters and traces; `flushed_items`
records the item batch the call was made for. -/
def mx_flush (sink : Nat → Option String) (items : List MxItem) (st : MxDocSt) : MxDocSt :=
  let r := insert_batch_with_retry sink st.calls items default_retry_delay
  { st with chunks_inserted := st.chunks_inserted + r.fst.inserted,
            chunks_failed := st.chunks_failed + r.fst.failed,
            calls := r.snd,
            log := st.log ++ r.fst.log,
            sink_batches := st.sink_batches ++ r.fst.sink_batches,
            flushed_items := st.flushed_items ++ [items],
            slept := st.slept ++ r.fst.slept }

/-- Embeds the accumulator branch of the paragraph loop
(mx/addToCollection.py:180-210), taking the already built `batch_item` with
its `token_count`: flush-then-restart when the batch would overflow,
oversized singleton handling, else append. -/
def mx_accum (sink : Nat → Option String) (st : MxDocSt) (batch_item : MxItem) : MxDocSt :=
  let token_count := batch_item.token_count
  if st.current_batch ≠ [] ∧ st.current_batch_tokens + token_count > MAX_BATCH_TOKENS_MX then
    let st := mx_flush sink st.current_batch st
    { st with current_batch := [batch_item], current_batch_tokens := token_count }
  else if token_count > MAX_BATCH_TOKENS_MX then
    let st :=
      if st.current_batch ≠ [] then
        let st := mx_flush sink st.current_batch st
        { st with current_batch := [], current_batch_tokens := 0 }
      else st
    mx_flush sink [batch_item] st
  else
    { st with current_batch := st.current_batch ++ [batch_item],
              current_batch_tokens := st.current_batch_tokens + token_count }

/-- The per-paragraph body of the loop (mx/addToCollection.py:164-210):
build the chunk object and batch item (lines 165-178), then accumulate. -/
def mx_step (sink : Nat → Option String) (document_name document_tipo : String)
    (only_content : Bool) (file_name : String) (st : MxDocSt) (paragraph : Paragraph) :
    MxDocSt :=
  let r := create_chunk_object paragraph document_name document_tipo only_content
  let batch_item : MxItem :=
    { obj := r.fst, article := r.snd.fst, token_count := r.snd.snd,
      paragraph := paragraph, document_name := document_name,
      document_tipo := document_tipo, file_name := file_name }
  mx_accum sink st batch_item

/-- The accumulate-then-final-flush run over a stream of batch items
(mx/addToCollection.py:164-215 abstracted over the item stream). -/
def mx_run_items (sink : Nat → Option String) (items : List MxItem) : MxDocSt :=
  let st := items.foldl (mx_accum sink) MxDocSt.init
  if st.current_batch ≠ [] then mx_flush sink st.current_batch st else st

/-- An mx JSON document: the fields read at mx/addToCollection.py:147-150. -/
structure MxDocument where
  name : String
  tipo : String
  onlyContent : Bool
  paragraphs_by_bold : List Paragraph
deriving DecidableEq

/-- Embeds `process_document` (mx/addToCollection.py:136-219): loop over the
paragraphs building each batch item and accumulating it, then process any
remaining chunks in the final batch. -/
def mx_process_document (sink : Nat → Option String) (doc : MxDocument)
    (file_name : String) : MxDocSt :=
  let st := doc.paragraphs_by_bold.foldl
    (mx_step sink doc.name doc.tipo doc.onlyContent file_name) MxDocSt.init
  if st.current_batch ≠ [] then mx_flush sink st.current_batch st else st

/-! ### Model of 7_weaviate/us/state/old/batchAddStateCollectionOllamaV2.py -/

/-- The `MAX_BATCH_TOKENS` constant of batchAddStateCollectionOllamaV2.py:9 (the
processing functions of that script take `max_tokens` as a parameter; this
constant is what `main` passes). -/
def MAX_BATCH_TOKENS_OLLAMA : Nat := 136000

/-- One entry of the failed-chunks JSONL written by the OllamaV2 script
(lines 106-110 and 138-142): dict keys error/properties/batch_number. -/
structure OllEntry where
  error : String
  properties : StProps
  batch_number : Int
deriving DecidableEq

/-- The state threaded through the OllamaV2 script: the `stats` dict
(Python ints, lines 225-230), the `batch_state` dict (lines 232-235), and
the observable traces.  `stats['imported']` can decrease in Python if the
sink reported more failed objects than the batch size, so the counters are
integers. -/
structure OllSt where
  processed : Int
  imported : Int
  failed : Int
  batches : Int
  objects : List StProps
  tokens : Nat
  sink_batches : List (List StProps)
  failure_log : List OllEntry
deriving DecidableEq

/-- Initial OllamaV2 state. -/
def OllSt.init : OllSt :=
  { processed := 0, imported := 0, failed := 0, batches := 0,
    objects := [], tokens := 0, sink_batches := [], failure_log := [] }

/-- The fatal-message check of batchAddStateCollectionOllamaV2.py:125:
`"disk usage too high" in error_msg.lower() or "read-only" in
error_msg.lower()`. -/
def disk_error_check (error_msg : String) : Bool :=
  py_in "disk usage too high" (py_lower error_msg) ||
    py_in "read-only" (py_lower error_msg)

/-- Embeds `send_batch_to_weaviate` (batchAddStateCollectionOllamaV2.py:
86-142).  `sink b` is the outcome for batch number `b`.  An empty batch
returns untouched; a completed context with failed objects logs each one
with the batch number and counts the rest as imported, with no retry; an
exception counts the whole batch as failed, then either re-raises (when the
message matches the disk-space pattern — `.error` carries the state at the
raise, with nothing from this batch logged) or logs every object. -/
def send_batch_to_weaviate (sink : Int → BatchOutcome) (batch_objects : List StProps)
    (batch_number : Int) (st : OllSt) : Except (String × OllSt) OllSt :=
  if batch_objects = [] then .ok st
  else
    let batch_size := batch_objects.length
    let st := { st with sink_batches := st.sink_batches ++ [batch_objects] }
    match sink batch_number with
    | .completed failed_objects =>
        if failed_objects ≠ [] then
          let entries := failed_objects.map
            (fun f => (⟨f.message, f.properties, batch_number⟩ : OllEntry))
          let st :=
            { st with failed := st.failed + failed_objects.length,
                      failure_log := st.failure_log ++ entries }
          let successful : Int := (batch_size : Int) - (failed_objects.length : Int)
          .ok { st with imported := st.imported + successful }
        else
          .ok { st with imported := st.imported + batch_size }
    | .exception e =>
        let st := { st with failed := st.failed + batch_size }
        if disk_error_check e then .error (e, st)
        else
          let entries := batch_objects.map (fun obj => (⟨e, obj, batch_number⟩ : OllEntry))
          .ok { st with failure_log := st.failure_log ++ entries }

/-- Embeds `should_send_batch` (batchAddStateCollectionOllamaV2.py:144-146). -/
def should_send_batch (current_tokens chunk_tokens max_tokens : Nat) : Bool :=
  current_tokens + chunk_tokens > max_tokens

/-- Embeds `create_chunk_properties` (batchAddStateCollectionOllamaV2.py:
57-80). -/
def create_chunk_properties (chunk : Chunk) (article : String)
    (from_article : List String) (document : String) : StProps :=
  { content := chunk.content, priorContent := chunk.priorContent,
    contentAndPriorConcatenated := py_strip (chunk.priorContent ++ " " ++ chunk.content),
    article := article, fromArticle := from_article, document := document }

/-- Embeds `handle_oversized_chunk` (batchAddStateCollectionOllamaV2.py:
148-154): bump the batch counter and send the chunk alone. -/
def handle_oversized_chunk (sink : Int → BatchOutcome) (properties : StProps)
    (st : OllSt) : Except (String × OllSt) OllSt :=
  let st := { st with batches := st.batches + 1 }
  send_batch_to_weaviate sink [properties] st.batches st

/-- The body of the chunk loop of `process_chunks_from_line`
(batchAddStateCollectionOllamaV2.py:177-208). -/
def oll_chunk_step (sink : Int → BatchOutcome) (article : String)
    (from_article : List String) (document : String) (max_tokens : Nat)
    (st : OllSt) (chunk : Chunk) : Except (String × OllSt) OllSt := do
  let properties := create_chunk_properties chunk article from_article document
  let chunk_tokens := approx_tokens properties.content
  let st := { st with processed := st.processed + 1 }
  if chunk_tokens > max_tokens then
    let st ←
      if st.objects ≠ [] then do
        let st1 := { st with batches := st.batches + 1 }
        let st2 ← send_batch_to_weaviate sink st.objects st1.batches st1
        pure { st2 with objects := [], tokens := 0 }
      else pure st
    handle_oversized_chunk sink properties st
  else
    let st ←
      if should_send_batch st.tokens chunk_tokens max_tokens then do
        let st1 := { st with batches := st.batches + 1 }
        let st2 ← send_batch_to_weaviate sink st.objects st1.batches st1
        pure { st2 with objects := [], tokens := 0 }
      else pure st
    pure { st with objects := st.objects ++ [properties],
                   tokens := st.tokens + chunk_tokens }

/-- Embeds `process_chunks_from_line` (batchAddStateCollectionOllamaV2.py:
160-208). -/
def process_chunks_from_line (sink : Int → BatchOutcome) (data : LineData)
    (document : String) (max_tokens : Nat) (st : OllSt) :
    Except (String × OllSt) OllSt :=
  let pa := extract_parent_info data.fields
  data.chunks.foldlM (oll_chunk_step sink pa.fst pa.snd document max_tokens) st

/-- Embeds `process_jsonl_file` (batchAddStateCollectionOllamaV2.py:210-263):
parse-error lines are skipped (`except json.JSONDecodeError: continue`),
any other exception propagates and aborts the run; at the end any remaining
chunks are sent as the final batch. -/
def process_jsonl_file (sink : Int → BatchOutcome) (lines : List (Option LineData))
    (document : String) (max_tokens : Nat) : Except (String × OllSt) OllSt := do
  let st ← lines.foldlM
    (fun st line =>
      match line with
      | none => pure st
      | some data => process_chunks_from_line sink data document max_tokens st)
    OllSt.init
  if st.objects ≠ [] then
    let st1 := { st with batches := st.batches + 1 }
    send_batch_to_weaviate sink st.objects st1.batches st1
  else pure st

/-! ### Model of 7_weaviate/mx/populateCollection.py (two-phase loader) -/

/-- A sub-chunk of an article: the fields read at
mx/populateCollection.py:88-93 and us/federal/populateCollections.py:71-78. -/
structure SubChunk where
  name : String
  content : String
  start_offset : Int
deriving DecidableEq

/-- One article-level object of an mx two-phase document: the fields read at
mx/populateCollection.py:37-38. -/
structure ArticleData where
  full_content : String
  sub_chunks : List SubChunk
deriving DecidableEq

/-- An mx two-phase document (mx/populateCollection.py:18-20). -/
structure PopDocument where
  document_name : String
  tipo : String
  articles : List ArticleData
deriving DecidableEq

/-- An article as inserted by phase 1 (mx/populateCollection.py:48-54).
`batch.add_object` returns a fresh identifier; the model uses the article's
index as the (injective) stand-in identifier. -/
structure InsertedArticle where
  content : String
  article : String
  document : String
  uuid : Nat
deriving DecidableEq

/-- A chunk as inserted by phase 2 (mx/populateCollection.py:88-110), with
its optional `source_article` reference. -/
structure InsertedChunk where
  content : String
  article : String
  tipo : String
  document : String
  start_offset : Int
  source_article : Option Nat
deriving DecidableEq

/-- The article name used in phase 1 (mx/populateCollection.py:41-44): the
name of the first sub-chunk, or `article_{idx}` as fallback. -/
def mx_article_name (idx : Nat) (a : ArticleData) : String :=
  match a.sub_chunks with
  | [] => "article_" ++ toString idx
  | c :: _ => c.name

/-- Phase 1 of mx/populateCollection.py (lines 35-64), from article index
`idx` on: returns the `article_uuids` entries (`none` for an article whose
stripped `full_content` is empty, which is skipped) and the inserted
articles. -/
def mx_phase1 (document_name : String) (idx : Nat) :
    List ArticleData → List (Option Nat) × List InsertedArticle
  | [] => ([], [])
  | a :: rest =>
      let r := mx_phase1 document_name (idx + 1) rest
      if py_strip a.full_content ≠ "" then
        (some idx :: r.fst,
         { content := a.full_content, article := mx_article_name idx a,
           document := document_name, uuid := idx } :: r.snd)
      else
        (none :: r.fst, r.snd)

/-- Phase 2 of mx/populateCollection.py (lines 77-116), from article index
`idx` on: every sub-chunk of every article is inserted; the reference is
attached exactly when `article_uuids.get(article_idx)` is a present,
non-null identifier. -/
def mx_phase2 (tipo document_name : String) (uuids : List (Option Nat)) (idx : Nat) :
    List ArticleData → List InsertedChunk
  | [] => []
  | a :: rest =>
      let article_uuid := (uuids.get? idx).getD none
      let here := a.sub_chunks.map (fun c =>
        { content := c.content, article := c.name, tipo := tipo,
          document := document_name, start_offset := c.start_offset,
          source_article := article_uuid })
      here ++ mx_phase2 tipo document_name uuids (idx + 1) rest

/-- Embeds `populate_collections_batch` (mx/populateCollection.py:5-124):
phase 1 over the articles, then phase 2 over all sub-chunks using the
recorded identifiers. -/
def populate_collections_batch (doc : PopDocument) :
    List (Option Nat) × List InsertedArticle × List InsertedChunk :=
  let p1 := mx_phase1 doc.document_name 0 doc.articles
  let chunks := mx_phase2 doc.tipo doc.document_name p1.fst 0 doc.articles
  (p1.fst, p1.snd, chunks)

/-! ### Model of 7_weaviate/us/federal/populateCollections.py (two-phase
loader, federal variant) -/

/-- One article-level object of a federal document: the fields read at
us/federal/populateCollections.py:47-48 and 68-71. -/
structure FedArticleData where
  full_content : String
  article_name : String
  sub_chunks : List SubChunk
deriving DecidableEq

/-- A chunk inserted by the federal phase 2
(us/federal/populateCollections.py:72-82): the reference is always
attached. -/
structure FedInsertedChunk where
  content : String
  article : String
  document : String
  start_offset : Int
  source_article : Nat
deriving DecidableEq

/-- Phase 1 of us/federal/populateCollections.py (lines 43-56): every
article is inserted unconditionally, keyed by `article_name`; the model
again uses the index as the identifier. -/
def fed_phase1 (document_name : String) (idx : Nat) :
    List FedArticleData → List (String × Nat) × List InsertedArticle
  | [] => ([], [])
  | a :: rest =>
      let r := fed_phase1 document_name (idx + 1) rest
      ((a.article_name, idx) :: r.fst,
       { content := a.full_content, article := a.article_name,
         document := document_name, uuid := idx } :: r.snd)

/-- Python dict lookup `article_uuids[article_name]` for the federal phase 2:
the dict retains the last write per key, so lookup prefers the last
binding. -/
def fed_uuid_lookup (uuids : List (String × Nat)) (k : String) : Nat :=
  (((uuids.reverse.find? (fun kv => kv.fst == k)).map Prod.snd)).getD 0

/-- Phase 2 of us/federal/populateCollections.py (lines 66-87): every
sub-chunk is inserted carrying a reference to its article's identifier. -/
def fed_phase2 (document_name : String) (uuids : List (String × Nat)) :
    List FedArticleData → List FedInsertedChunk
  | [] => []
  | a :: rest =>
      let article_uuid := fed_uuid_lookup uuids a.article_name
      let here := a.sub_chunks.map (fun c =>
        { content := c.content, article := a.article_name,
          document := document_name, start_offset := c.start_offset,
          source_article := article_uuid })
      here ++ fed_phase2 document_name uuids rest

/-- Embeds the federal `populate_collections_batch`
(us/federal/populateCollections.py:15-93), with the document name already
resolved. -/
def fed_populate_collections_batch (document_name : String)
    (articles_data : List FedArticleData) :
    List (String × Nat) × List InsertedArticle × List FedInsertedChunk :=
  let p1 := fed_phase1 document_name 0 articles_data
  (p1.fst, p1.snd, fed_phase2 document_name p1.fst articles_data)

/-! ## Infrastructure for the verification -/

instance exceptDecEq {ε α : Type _} [DecidableEq ε] [DecidableEq α] :
    DecidableEq (Except ε α) := fun x y =>
  match x, y with
  | .ok u, .ok v => if h : u = v then .isTrue (by rw [h]) else .isFalse (by simp [h])
  | .error u, .error v => if h : u = v then .isTrue (by rw [h]) else .isFalse (by simp [h])
  | .ok _, .error _ => .isFalse (by simp)
  | .error _, .ok _ => .isFalse (by simp)

/-- A property preserved by every step of a fold holds of the fold. -/
theorem list_foldl_inv {σ α : Type _} (P : σ → Prop) (f : σ → α → σ)
    (hf : ∀ s a, P s → P (f s a)) :
    ∀ (l : List α) (s : σ), P s → P (l.foldl f s) := by
  intro l
  induction l with
  | nil => intro s hs; exact hs
  | cons a l ih => intro s hs; exact ih (f s a) (hf s a hs)

/-- A counting invariant advanced by one per step of a fold advances by the
list length. -/
theorem list_foldl_count {σ α : Type _} (P : σ → Nat → Prop) (f : σ → α → σ)
    (hf : ∀ s a n, P s n → P (f s a) (n + 1)) :
    ∀ (l : List α) (s : σ) (n : Nat), P s n → P (l.foldl f s) (n + l.length) := by
  intro l
  induction l with
  | nil => intro s n hs; simpa using hs
  | cons a l ih =>
      intro s n hs
      have h := ih (f s a) (n + 1) (hf s a n hs)
      have he : n + (a :: l).length = n + 1 + l.length := by
        simp [List.length_cons]; omega
      rw [he]
      exact h

/-- The sink-call trace of `send_batch`: nothing on an empty batch, the
batch itself otherwise, whatever the outcome. -/
theorem state_send_batch_flushed (sink : Nat → BatchOutcome) (batch : List StProps)
    (st : StateSt) :
    (state_send_batch sink batch st).flushed =
      st.flushed ++ if batch = [] then [] else [batch] := by
  unfold state_send_batch
  by_cases hb : batch = []
  · simp [hb]
  · cases hout : sink (st.batches + 1) <;> simp [hb, hout]

/-- Lemma: `send_batch` leaves the accumulator's batch alone. -/
theorem state_send_batch_current (sink : Nat → BatchOutcome) (batch : List StProps)
    (st : StateSt) :
    (state_send_batch sink batch st).current_batch = st.current_batch := by
  unfold state_send_batch
  by_cases hb : batch = []
  · simp [hb]
  · cases hout : sink (st.batches + 1) <;> simp [hb, hout]

/-- Lemma: `send_batch` leaves the accumulator's running total alone. -/
theorem state_send_batch_tokens (sink : Nat → BatchOutcome) (batch : List StProps)
    (st : StateSt) :
    (state_send_batch sink batch st).current_tokens = st.current_tokens := by
  unfold state_send_batch
  by_cases hb : batch = []
  · simp [hb]
  · cases hout : sink (st.batches + 1) <;> simp [hb, hout]

/-- Lemma: `send_batch` leaves the processed counter alone. -/
theorem state_send_batch_processed (sink : Nat → BatchOutcome) (batch : List StProps)
    (st : StateSt) :
    (state_send_batch sink batch st).processed = st.processed := by
  unfold state_send_batch
  by_cases hb : batch = []
  · simp [hb]
  · cases hout : sink (st.batches + 1) <;> simp [hb, hout]

/-- Lemma: `send_batch` adds the batch size to `imported + failed`. -/
theorem state_send_batch_counts (sink : Nat → BatchOutcome) (batch : List StProps)
    (st : StateSt) :
    (state_send_batch sink batch st).imported + (state_send_batch sink batch st).failed =
      st.imported + st.failed + batch.length := by
  unfold state_send_batch
  by_cases hb : batch = []
  · simp [hb]
  · cases hout : sink (st.batches + 1) <;> simp [hb, hout] <;> omega

/-! ## C8 -/

/-- C8: the weight function equals `max 1 (length / 4)` on every text, is
deterministic, and is monotone: a strictly shorter text never gets a larger
weight. -/
theorem C8_weight_function (t t1 t2 : String) (h : t1.length < t2.length) :
    approx_tokens t = max 1 (t.length / 4) ∧
    approx_tokens t = approx_tokens t ∧
    approx_tokens t1 ≤ approx_tokens t2 := by
  refine ⟨rfl, rfl, ?_⟩
  unfold approx_tokens
  exact max_le_max (le_refl 1) (Nat.div_le_div_right h.le)

/-- C8 witness: the monotonicity instance at texts of length 2 and 8. -/
theorem C8_weight_function_witness :
    ("ab".length < "abcdefgh".length) ∧ approx_tokens "ab" ≤ approx_tokens "abcdefgh" :=
  ⟨by decide, (C8_weight_function "ab" "ab" "abcdefgh" (by decide)).2.2⟩

/-! ## C10 -/

/-- C10: parent extraction sorts `parent_N` keys by the numeric value of `N`
(`parent_10` after `parent_9`, also when the dict lists it first), returns
the highest-numbered parent as the article and the values of `parent_1`
through `parent_N` in ascending numeric order as `fromArticle`, and returns
an empty article and list, without error, on a line with no parent keys. -/
theorem C10_parent_extraction (v0 v1 v2 v3 v9 v10 a b c x y : String) :
    extract_parent_info
        [("parent_0", v0), ("parent_1", v1), ("parent_2", v2), ("parent_3", v3),
         ("parent_9", v9), ("parent_10", v10)] =
      (v10, [v1, v2, v3, v9, v10]) ∧
    extract_parent_info [("parent_10", a), ("parent_9", b), ("parent_0", c)] =
      (a, [b, a]) ∧
    extract_parent_info [("name", x), ("content", y)] = ("", []) ∧
    extract_parent_info [] = ("", []) :=
  ⟨rfl, rfl, rfl, rfl⟩

/-! ## C2 -/

/-- A pending-batch record of weight 30000 for the C2 scenario (the mx
accumulator compares the `token_count` fields; a content of 120000
characters yields this weight). -/
def c2_pending_item : MxItem :=
  { obj := { content := "p", priorContent := "", contentAndPriorConcatenated := "p",
             article := "", fromArticle := [], document := "d", tipo := "t" },
    article := "", token_count := 30000, paragraph := ⟨"p", "", "", ""⟩,
    document_name := "d", document_tipo := "t", file_name := "f.json" }

/-- An oversized record of weight 130000 for the C2 scenario. -/
def c2_oversized_item : MxItem :=
  { obj := { content := "q", priorContent := "", contentAndPriorConcatenated := "q",
             article := "", fromArticle := [], document := "d", tipo := "t" },
    article := "", token_count := 130000, paragraph := ⟨"q", "", "", ""⟩,
    document_name := "d", document_tipo := "t", file_name := "f.json" }

/-- A sink whose every insert succeeds. -/
def c2_sink_ok : Nat → Option String := fun _ => none

/-- C2: in the state script, a record whose weight exceeds the limit makes
the accumulator flush any non-empty pending batch first, unmodified, then
flush the record alone as a singleton batch, leaving the accumulator empty;
and in the mx accumulator, a record of weight 130000 arriving after a
pending batch of weight 30000 under limit 120000 produces the flush order
[pending batch of weight 30000], [singleton of weight 130000]. -/
theorem C2_oversized_singleton_flush (sink : Nat → BatchOutcome) (props : StProps)
    (w : Nat) (st : StateSt) (hw : w > MAX_BATCH_TOKENS_STATE) :
    ((state_accum sink props w st).flushed =
        st.flushed ++ (if st.current_batch = [] then [] else [st.current_batch]) ++
          [[props]] ∧
      (state_accum sink props w st).current_batch = []) ∧
    ((mx_run_items c2_sink_ok [c2_pending_item, c2_oversized_item]).flushed_items =
        [[c2_pending_item], [c2_oversized_item]] ∧
      c2_pending_item.token_count = 30000 ∧
      c2_oversized_item.token_count = 130000 ∧
      MAX_BATCH_TOKENS_MX = 120000) := by
  refine ⟨?_, by decide, by decide, by decide, by decide⟩
  unfold state_accum
  rw [if_pos hw]
  by_cases hcb : st.current_batch = []
  · rw [if_neg (by simp [hcb])]
    constructor
    · rw [state_send_batch_flushed]; simp [hcb]
    · rw [state_send_batch_current, hcb]
  · rw [if_pos hcb]
    constructor
    · simp only [state_send_batch_flushed]
      simp [hcb]
    · simp only [state_send_batch_current]

/-- A witness sink for C2: every insert succeeds. -/
def c2w_sink : Nat → BatchOutcome := fun _ => .completed []

/-- A witness properties object for C2. -/
def c2w_props : StProps :=
  { content := "q", priorContent := "", contentAndPriorConcatenated := "q",
    article := "", fromArticle := [], document := "d" }

/-- The pending record of the C2 witness state. -/
def c2w_pending_props : StProps :=
  { content := "p", priorContent := "", contentAndPriorConcatenated := "p",
    article := "", fromArticle := [], document := "d" }

/-- A witness pending state for C2: one record of weight 30000 pending. -/
def c2w_st : StateSt :=
  { processed := 1, imported := 0, failed := 0, batches := 0,
    current_batch := [c2w_pending_props],
    current_tokens := 30000, flushed := [], failure_log := [] }

/-- C2 witness: the state-script part at a pending batch of weight 30000 and
an oversized record of weight 137000 (limit 136000). -/
theorem C2_oversized_singleton_flush_witness :
    (137000 > MAX_BATCH_TOKENS_STATE) ∧
    ((state_accum c2w_sink c2w_props 137000 c2w_st).flushed =
        c2w_st.flushed ++
          (if c2w_st.current_batch = [] then [] else [c2w_st.current_batch]) ++
          [[c2w_props]] ∧
      (state_accum c2w_sink c2w_props 137000 c2w_st).current_batch = []) :=
  ⟨by decide,
   (C2_oversized_singleton_flush c2w_sink c2w_props 137000 c2w_st (by decide)).1⟩

/-! ## C1 -/

/-- The accumulated weight of a batch of state-script objects: the sum of
`approx_tokens` over the contents, exactly what the accumulator summed into
`current_batch_tokens`. -/
def st_batch_weight (b : List StProps) : Nat :=
  (b.map (fun p => approx_tokens p.content)).sum

/-- An admissible state-script batch: within the limit, or a forced
singleton holding one oversized record. -/
def st_batch_ok (b : List StProps) : Prop :=
  st_batch_weight b ≤ MAX_BATCH_TOKENS_STATE ∨
    ∃ p, b = [p] ∧ approx_tokens p.content > MAX_BATCH_TOKENS_STATE

/-- The state-script accumulator invariant: the running total matches the
pending batch, the pending batch is within the limit, and every batch
flushed so far is admissible. -/
def state_inv (st : StateSt) : Prop :=
  st.current_tokens = st_batch_weight st.current_batch ∧
  st_batch_weight st.current_batch ≤ MAX_BATCH_TOKENS_STATE ∧
  ∀ b ∈ st.flushed, st_batch_ok b

/-- Lemma: `send_batch` only adds admissible batches to the sink trace. -/
theorem state_send_batch_ok (sink : Nat → BatchOutcome) (batch : List StProps)
    (st : StateSt) (hok : batch ≠ [] → st_batch_ok batch)
    (h : ∀ b ∈ st.flushed, st_batch_ok b) :
    ∀ b ∈ (state_send_batch sink batch st).flushed, st_batch_ok b := by
  rw [state_send_batch_flushed]
  intro b hb
  rcases List.mem_append.mp hb with hmem | hmem
  · exact h b hmem
  · by_cases hbe : batch = []
    · simp [hbe] at hmem
    · simp [hbe] at hmem
      subst hmem
      exact hok hbe

/-- The state-script accumulator preserves the invariant on any record whose
weight was computed by `approx_tokens` on its content. -/
theorem state_accum_inv (sink : Nat → BatchOutcome) (props : StProps) (w : Nat)
    (st : StateSt) (hw : w = approx_tokens props.content) (h : state_inv st) :
    state_inv (state_accum sink props w st) := by
  obtain ⟨h1, h2, h3⟩ := h
  unfold state_accum
  by_cases hbig : w > MAX_BATCH_TOKENS_STATE
  · rw [if_pos hbig]
    have hsing : ([props] : List StProps) ≠ [] → st_batch_ok [props] :=
      fun _ => Or.inr ⟨props, rfl, hw ▸ hbig⟩
    by_cases hcb : st.current_batch = []
    · rw [if_neg (by simp [hcb])]
      refine ⟨?_, ?_, ?_⟩
      · rw [state_send_batch_tokens, state_send_batch_current, h1]
      · rw [state_send_batch_current]; exact h2
      · exact state_send_batch_ok sink [props] st hsing h3
    · rw [if_pos hcb]
      refine ⟨?_, ?_, ?_⟩
      · rw [state_send_batch_tokens, state_send_batch_current]
        simp [st_batch_weight]
      · rw [state_send_batch_current]
        simp [st_batch_weight]
      · refine state_send_batch_ok sink [props] _ hsing ?_
        exact state_send_batch_ok sink st.current_batch st (fun _ => Or.inl h2) h3
  · rw [if_neg hbig]
    by_cases hover : st.current_tokens + w > MAX_BATCH_TOKENS_STATE
    · rw [if_pos hover]
      refine ⟨?_, ?_, ?_⟩
      · show w = st_batch_weight [props]
        simp [st_batch_weight, hw]
      · show st_batch_weight [props] ≤ MAX_BATCH_TOKENS_STATE
        simp only [st_batch_weight, List.map_cons, List.map_nil, List.sum_cons,
          List.sum_nil, Nat.add_zero]
        rw [← hw]
        exact Nat.le_of_not_lt hbig
      · exact state_send_batch_ok sink st.current_batch st (fun _ => Or.inl h2) h3
    · rw [if_neg hover]
      refine ⟨?_, ?_, ?_⟩
      · simp only [st_batch_weight, List.map_append, List.sum_append, List.map_cons,
          List.map_nil, List.sum_cons, List.sum_nil, Nat.add_zero]
        rw [← hw, h1]
        rfl
      · simp only [st_batch_weight, List.map_append, List.sum_append, List.map_cons,
          List.map_nil, List.sum_cons, List.sum_nil, Nat.add_zero]
        rw [← hw]
        rw [st_batch_weight] at h1
        rw [← h1]
        exact Nat.le_of_not_lt hover
      · exact h3

/-- The per-chunk step preserves the state-script invariant. -/
theorem state_step_inv (sink : Nat → BatchOutcome) (article : String)
    (from_article : List String) (document : String) (st : StateSt) (ch : Chunk)
    (h : state_inv st) :
    state_inv (state_step sink article from_article document st ch) :=
  state_accum_inv sink _ _ _ rfl ⟨h.1, h.2.1, h.2.2⟩

/-- The per-line step preserves the state-script invariant. -/
theorem state_line_inv (sink : Nat → BatchOutcome) (document : String)
    (st : StateSt) (line : Option LineData) (h : state_inv st) :
    state_inv (state_process_line sink document st line) := by
  cases line with
  | none => exact h
  | some data =>
      exact list_foldl_inv state_inv _
        (fun s c hs => state_step_inv sink _ _ document s c hs) data.chunks st h

/-- The weight of an mx item batch by the `token_count` fields. -/
def mx_tokens_sum (b : List MxItem) : Nat :=
  (b.map (fun i => i.token_count)).sum

/-- The accumulated weight of an mx item batch by the contents. -/
def mx_items_weight (b : List MxItem) : Nat :=
  (b.map (fun i => approx_tokens i.obj.content)).sum

/-- An admissible mx batch: within the limit, or a forced singleton holding
one oversized record. -/
def mx_batch_ok (b : List MxItem) : Prop :=
  mx_items_weight b ≤ MAX_BATCH_TOKENS_MX ∨
    ∃ i, b = [i] ∧ approx_tokens i.obj.content > MAX_BATCH_TOKENS_MX

/-- The mx accumulator invariant. -/
def mx_inv (st : MxDocSt) : Prop :=
  (∀ i ∈ st.current_batch, i.token_count = approx_tokens i.obj.content) ∧
  st.current_batch_tokens = mx_tokens_sum st.current_batch ∧
  (mx_tokens_sum st.current_batch ≤ MAX_BATCH_TOKENS_MX ∨
    ∃ i, st.current_batch = [i] ∧ i.token_count > MAX_BATCH_TOKENS_MX) ∧
  ∀ b ∈ st.flushed_items, mx_batch_ok b

/-- When every item's `token_count` was computed from its content, the two
batch weights agree. -/
theorem mx_weight_eq (b : List MxItem)
    (h : ∀ i ∈ b, i.token_count = approx_tokens i.obj.content) :
    mx_tokens_sum b = mx_items_weight b := by
  unfold mx_tokens_sum mx_items_weight
  induction b with
  | nil => rfl
  | cons x xs ih =>
      simp only [List.map_cons, List.sum_cons]
      rw [h x (List.mem_cons_self x xs),
        ih (fun i hi => h i (List.mem_cons_of_mem x hi))]

/-- Lemma: `mx_flush` leaves the accumulator's batch alone. -/
theorem mx_flush_current (sink : Nat → Option String) (items : List MxItem)
    (st : MxDocSt) : (mx_flush sink items st).current_batch = st.current_batch := rfl

/-- Lemma: `mx_flush` leaves the accumulator's running total alone. -/
theorem mx_flush_tokens (sink : Nat → Option String) (items : List MxItem)
    (st : MxDocSt) :
    (mx_flush sink items st).current_batch_tokens = st.current_batch_tokens := rfl

/-- Lemma: `mx_flush` appends exactly the flushed item batch to the trace. -/
theorem mx_flush_flushed_items (sink : Nat → Option String) (items : List MxItem)
    (st : MxDocSt) :
    (mx_flush sink items st).flushed_items = st.flushed_items ++ [items] := rfl

/-- Lemma: `mx_flush` only adds admissible batches to the trace. -/
theorem mx_flush_ok (sink : Nat → Option String) (items : List MxItem)
    (st : MxDocSt) (hok : mx_batch_ok items)
    (h : ∀ b ∈ st.flushed_items, mx_batch_ok b) :
    ∀ b ∈ (mx_flush sink items st).flushed_items, mx_batch_ok b := by
  rw [mx_flush_flushed_items]
  intro b hb
  rcases List.mem_append.mp hb with hmem | hmem
  · exact h b hmem
  · simp at hmem; subst hmem; exact hok

/-- The mx accumulator preserves the invariant on any item whose
`token_count` was computed from its content. -/
theorem mx_accum_inv (sink : Nat → Option String) (st : MxDocSt) (item : MxItem)
    (hitem : item.token_count = approx_tokens item.obj.content) (h : mx_inv st) :
    mx_inv (mx_accum sink st item) := by
  obtain ⟨h1, h2, h3, h4⟩ := h
  have hcur_ok : st.current_batch ≠ [] → mx_batch_ok st.current_batch := by
    intro _
    rcases h3 with hle | ⟨i, hi, hgt⟩
    · exact Or.inl (by rw [← mx_weight_eq st.current_batch h1]; exact hle)
    · exact Or.inr ⟨i, hi, by rw [← h1 i (by rw [hi]; exact List.mem_singleton_self i)]; exact hgt⟩
  unfold mx_accum
  by_cases hb1 : st.current_batch ≠ [] ∧
      st.current_batch_tokens + item.token_count > MAX_BATCH_TOKENS_MX
  · rw [if_pos hb1]
    refine ⟨?_, ?_, ?_, ?_⟩
    · intro i hi
      simp only [List.mem_singleton] at hi
      subst hi; exact hitem
    · simp [mx_tokens_sum]
    · rcases Nat.lt_or_ge MAX_BATCH_TOKENS_MX item.token_count with hgt | hle
      · exact Or.inr ⟨item, rfl, hgt⟩
      · exact Or.inl (by simp [mx_tokens_sum]; exact hle)
    · exact mx_flush_ok sink st.current_batch st (hcur_ok hb1.1) h4
  · rw [if_neg hb1]
    by_cases hb2 : item.token_count > MAX_BATCH_TOKENS_MX
    · rw [if_pos hb2]
      have hcb : st.current_batch = [] := by
        by_contra hne
        exact hb1 ⟨hne, by omega⟩
      rw [if_neg (by simp [hcb])]
      refine ⟨?_, ?_, ?_, ?_⟩
      · rw [mx_flush_current, hcb]; intro i hi; simp at hi
      · rw [mx_flush_tokens, mx_flush_current]; exact h2
      · rw [mx_flush_current]; exact h3
      · exact mx_flush_ok sink [item] st (Or.inr ⟨item, rfl, hitem ▸ hb2⟩) h4
    · rw [if_neg hb2]
      refine ⟨?_, ?_, ?_, ?_⟩
      · intro i hi
        rcases List.mem_append.mp hi with hm | hm
        · exact h1 i hm
        · simp only [List.mem_singleton] at hm; subst hm; exact hitem
      · simp only [mx_tokens_sum, List.map_append, List.sum_append, List.map_cons,
          List.map_nil, List.sum_cons, List.sum_nil, Nat.add_zero]
        rw [mx_tokens_sum] at h2
        rw [h2]
      · refine Or.inl ?_
        simp only [mx_tokens_sum, List.map_append, List.sum_append, List.map_cons,
          List.map_nil, List.sum_cons, List.sum_nil, Nat.add_zero]
        by_cases hcb : st.current_batch = []
        · simp [hcb]
          omega
        · have hle : st.current_batch_tokens + item.token_count ≤ MAX_BATCH_TOKENS_MX := by
            by_contra hgt
            exact hb1 ⟨hcb, by omega⟩
          rw [mx_tokens_sum] at h2
          rw [← h2]
          exact hle
      · exact h4

/-- The per-paragraph step preserves the mx invariant. -/
theorem mx_step_inv (sink : Nat → Option String) (dn dt : String) (oc : Bool)
    (fn : String) (st : MxDocSt) (p : Paragraph) (h : mx_inv st) :
    mx_inv (mx_step sink dn dt oc fn st p) :=
  mx_accum_inv sink st _ rfl h

/-- C1: every batch the state script hands to the sink, and every item batch
the mx script flushes, has accumulated weight at most the respective
`MAX_BATCH_TOKENS`, except forced singletons holding one oversized
record. -/
theorem C1_batch_weight_invariant (sink : Nat → BatchOutcome) (document : String)
    (lines : List (Option LineData)) (sinkm : Nat → Option String)
    (doc : MxDocument) (file_name : String) :
    (∀ b ∈ (state_run sink document lines).flushed, st_batch_ok b) ∧
    (∀ b ∈ (mx_process_document sinkm doc file_name).flushed_items, mx_batch_ok b) := by
  constructor
  · have hinv : state_inv (lines.foldl (state_process_line sink document) StateSt.init) :=
      list_foldl_inv state_inv _
        (fun s l hs => state_line_inv sink document s l hs) lines StateSt.init
        ⟨rfl, by simp [st_batch_weight, StateSt.init, MAX_BATCH_TOKENS_STATE],
         by simp [StateSt.init]⟩
    unfold state_run
    obtain ⟨h1, h2, h3⟩ := hinv
    by_cases hcb : (lines.foldl (state_process_line sink document) StateSt.init).current_batch = []
    · rw [if_neg (by simp [hcb])]
      exact h3
    · rw [if_pos hcb]
      exact state_send_batch_ok sink _ _ (fun _ => Or.inl h2) h3
  · have hinv : mx_inv (doc.paragraphs_by_bold.foldl
        (mx_step sinkm doc.name doc.tipo doc.onlyContent file_name) MxDocSt.init) :=
      list_foldl_inv mx_inv _
        (fun s p hs => mx_step_inv sinkm _ _ _ _ s p hs) doc.paragraphs_by_bold MxDocSt.init
        ⟨by intro i hi; simp [MxDocSt.init] at hi, rfl,
         Or.inl (by simp [mx_tokens_sum, MxDocSt.init, MAX_BATCH_TOKENS_MX]),
         by simp [MxDocSt.init]⟩
    unfold mx_process_document
    obtain ⟨h1, h2, h3, h4⟩ := hinv
    by_cases hcb : (doc.paragraphs_by_bold.foldl
        (mx_step sinkm doc.name doc.tipo doc.onlyContent file_name) MxDocSt.init).current_batch = []
    · rw [if_neg (by simp [hcb])]
      exact h4
    · rw [if_pos hcb]
      refine mx_flush_ok sinkm _ _ ?_ h4
      rcases h3 with hle | ⟨i, hi, hgt⟩
      · exact Or.inl (by rw [← mx_weight_eq _ h1]; exact hle)
      · exact Or.inr ⟨i, hi, by rw [← h1 i (by rw [hi]; exact List.mem_singleton_self i)]; exact hgt⟩

/-- A C1 witness sink: every insert succeeds. -/
def c1w_sink : Nat → BatchOutcome := fun _ => .completed []

/-- A C1 witness input: one line with one small chunk. -/
def c1w_lines : List (Option LineData) :=
  [some { fields := [("parent_0", "T")], chunks := [⟨"abcdefgh", ""⟩] }]

/-- The properties object the C1 witness run flushes. -/
def c1w_props : StProps :=
  { content := "abcdefgh", priorContent := "",
    contentAndPriorConcatenated := "abcdefgh", article := "T", fromArticle := [],
    document := "doc" }

/-- A C1 witness mx sink: every insert succeeds. -/
def c1w_sinkm : Nat → Option String := fun _ => none

/-- The paragraph of the C1 witness mx document. -/
def c1w_paragraph : Paragraph := ⟨"abcd", "", "A", ""⟩

/-- The C1 witness mx document. -/
def c1w_doc : MxDocument :=
  { name := "d", tipo := "t", onlyContent := false,
    paragraphs_by_bold := [c1w_paragraph] }

/-- The batch item the C1 witness mx run flushes. -/
def c1w_item : MxItem :=
  { obj := { content := "abcd", priorContent := "",
             contentAndPriorConcatenated := "abcd", article := "A",
             fromArticle := [], document := "d", tipo := "t" },
    article := "A", token_count := 1, paragraph := c1w_paragraph,
    document_name := "d", document_tipo := "t", file_name := "f" }

/-- C1 witness: both flushed batches of a concrete run are admissible. -/
theorem C1_batch_weight_invariant_witness :
    st_batch_ok [c1w_props] ∧ mx_batch_ok [c1w_item] :=
  ⟨(C1_batch_weight_invariant c1w_sink "doc" c1w_lines c1w_sinkm c1w_doc "f").1
      [c1w_props] (by decide),
   (C1_batch_weight_invariant c1w_sink "doc" c1w_lines c1w_sinkm c1w_doc "f").2
      [c1w_item] (by decide)⟩

/-! ## C9 -/

/-- Lemma: `send_batch` keeps the non-emptiness of every sink call. -/
theorem state_send_batch_nonempty (sink : Nat → BatchOutcome) (batch : List StProps)
    (st : StateSt) (h : ∀ b ∈ st.flushed, b ≠ []) :
    ∀ b ∈ (state_send_batch sink batch st).flushed, b ≠ [] := by
  rw [state_send_batch_flushed]
  intro b hb
  rcases List.mem_append.mp hb with hm | hm
  · exact h b hm
  · by_cases hbe : batch = []
    · simp [hbe] at hm
    · simp [hbe] at hm; subst hm; exact hbe

/-- The state accumulator never records an empty sink call. -/
theorem state_accum_nonempty (sink : Nat → BatchOutcome) (props : StProps) (w : Nat)
    (st : StateSt) (h : ∀ b ∈ st.flushed, b ≠ []) :
    ∀ b ∈ (state_accum sink props w st).flushed, b ≠ [] := by
  unfold state_accum
  by_cases hbig : w > MAX_BATCH_TOKENS_STATE
  · rw [if_pos hbig]
    by_cases hcb : st.current_batch = []
    · rw [if_neg (by simp [hcb])]
      exact state_send_batch_nonempty sink [props] st h
    · rw [if_pos hcb]
      exact state_send_batch_nonempty sink [props] _
        (state_send_batch_nonempty sink st.current_batch st h)
  · rw [if_neg hbig]
    by_cases hover : st.current_tokens + w > MAX_BATCH_TOKENS_STATE
    · rw [if_pos hover]
      exact state_send_batch_nonempty sink st.current_batch st h
    · rw [if_neg hover]
      exact h

/-- The per-chunk step never records an empty sink call. -/
theorem state_step_nonempty (sink : Nat → BatchOutcome) (article : String)
    (from_article : List String) (document : String) (st : StateSt) (ch : Chunk)
    (h : ∀ b ∈ st.flushed, b ≠ []) :
    ∀ b ∈ (state_step sink article from_article document st ch).flushed, b ≠ [] :=
  state_accum_nonempty sink _ _ _ h

/-- Every batch of `insert_batch_with_retry`'s sink calls is the batch's
object list. -/
theorem mx_insert_sink_batches (sink : Nat → Option String) (calls : Nat)
    (items : List MxItem) (delay : Nat) :
    ∀ b ∈ (insert_batch_with_retry sink calls items delay).fst.sink_batches,
      b = items.map (fun i => i.obj) := by
  unfold insert_batch_with_retry
  cases hout : sink calls with
  | none => simp
  | some e1 =>
      cases hout2 : sink (calls + 1) with
      | none => simp
      | some e2 => simp

/-- The sink-call trace of `mx_flush`. -/
theorem mx_flush_sink_batches (sink : Nat → Option String) (items : List MxItem)
    (st : MxDocSt) :
    (mx_flush sink items st).sink_batches =
      st.sink_batches ++
        (insert_batch_with_retry sink st.calls items default_retry_delay).fst.sink_batches :=
  rfl

/-- Flushing a non-empty item batch keeps every sink call non-empty. -/
theorem mx_flush_nonempty (sink : Nat → Option String) (items : List MxItem)
    (st : MxDocSt) (h : ∀ b ∈ st.sink_batches, b ≠ []) (hne : items ≠ []) :
    ∀ b ∈ (mx_flush sink items st).sink_batches, b ≠ [] := by
  rw [mx_flush_sink_batches]
  intro b hb
  rcases List.mem_append.mp hb with hm | hm
  · exact h b hm
  · rw [mx_insert_sink_batches sink st.calls items default_retry_delay b hm]
    simp [hne]

/-- The mx accumulator never makes an empty sink call. -/
theorem mx_accum_nonempty (sink : Nat → Option String) (st : MxDocSt) (item : MxItem)
    (h : ∀ b ∈ st.sink_batches, b ≠ []) :
    ∀ b ∈ (mx_accum sink st item).sink_batches, b ≠ [] := by
  unfold mx_accum
  by_cases hb1 : st.current_batch ≠ [] ∧
      st.current_batch_tokens + item.token_count > MAX_BATCH_TOKENS_MX
  · rw [if_pos hb1]
    exact mx_flush_nonempty sink st.current_batch st h hb1.1
  · rw [if_neg hb1]
    by_cases hb2 : item.token_count > MAX_BATCH_TOKENS_MX
    · rw [if_pos hb2]
      by_cases hcb : st.current_batch ≠ []
      · rw [if_pos hcb]
        exact mx_flush_nonempty sink [item] _
          (mx_flush_nonempty sink st.current_batch st h hcb) (by simp)
      · rw [if_neg hcb]
        exact mx_flush_nonempty sink [item] st h (by simp)
    · rw [if_neg hb2]
      exact h

/-- The per-paragraph step never makes an empty sink call. -/
theorem mx_step_nonempty (sink : Nat → Option String) (dn dt : String) (oc : Bool)
    (fn : String) (st : MxDocSt) (p : Paragraph)
    (h : ∀ b ∈ st.sink_batches, b ≠ []) :
    ∀ b ∈ (mx_step sink dn dt oc fn st p).sink_batches, b ≠ [] :=
  mx_accum_nonempty sink st _ h

/-- C9: the sink is never invoked with an empty batch: `send_batch` returns
untouched state on an empty list (state script and OllamaV2 script), and
every bulk-insert call of a state-script run or an mx-script run carries at
least one record. -/
theorem C9_no_empty_sink_call (sink : Nat → BatchOutcome) (document : String)
    (lines : List (Option LineData)) (sinkm : Nat → Option String)
    (doc : MxDocument) (file_name : String) :
    (∀ st : StateSt, state_send_batch sink [] st = st) ∧
    (∀ (osink : Int → BatchOutcome) (bn : Int) (ost : OllSt),
        send_batch_to_weaviate osink [] bn ost = .ok ost) ∧
    (∀ b ∈ (state_run sink document lines).flushed, b ≠ []) ∧
    (∀ b ∈ (mx_process_document sinkm doc file_name).sink_batches, b ≠ []) := by
  refine ⟨fun st => by simp [state_send_batch],
          fun osink bn ost => by simp [send_batch_to_weaviate], ?_, ?_⟩
  · have hinv : ∀ b ∈ (lines.foldl (state_process_line sink document) StateSt.init).flushed,
        b ≠ [] := by
      refine list_foldl_inv (fun s => ∀ b ∈ s.flushed, b ≠ []) _ ?_ lines StateSt.init ?_
      · intro s line hs
        cases line with
        | none => exact hs
        | some data =>
            exact list_foldl_inv (fun s => ∀ b ∈ s.flushed, b ≠ []) _
              (fun s c hsc => state_step_nonempty sink _ _ document s c hsc)
              data.chunks s hs
      · simp [StateSt.init]
    unfold state_run
    by_cases hcb : (lines.foldl (state_process_line sink document) StateSt.init).current_batch = []
    · rw [if_neg (by simp [hcb])]
      exact hinv
    · rw [if_pos hcb]
      exact state_send_batch_nonempty sink _ _ hinv
  · have hinv : ∀ b ∈ (doc.paragraphs_by_bold.foldl
        (mx_step sinkm doc.name doc.tipo doc.onlyContent file_name) MxDocSt.init).sink_batches,
        b ≠ [] := by
      refine list_foldl_inv (fun s => ∀ b ∈ s.sink_batches, b ≠ []) _ ?_
        doc.paragraphs_by_bold MxDocSt.init ?_
      · intro s p hs
        exact mx_step_nonempty sinkm _ _ _ _ s p hs
      · simp [MxDocSt.init]
    unfold mx_process_document
    by_cases hcb : (doc.paragraphs_by_bold.foldl
        (mx_step sinkm doc.name doc.tipo doc.onlyContent file_name) MxDocSt.init).current_batch = []
    · rw [if_neg (by simp [hcb])]
      exact hinv
    · rw [if_pos hcb]
      exact mx_flush_nonempty sinkm _ _ hinv hcb

/-- A C9 witness sink: every insert fails once then succeeds. -/
def c9w_sink : Nat → BatchOutcome := fun _ => .exception "timeout"

/-- A C9 witness input line. -/
def c9w_lines : List (Option LineData) :=
  [some { fields := [], chunks := [⟨"xy", "z"⟩] }]

/-- The properties object the C9 witness run flushes. -/
def c9w_props : StProps :=
  { content := "xy", priorContent := "z",
    contentAndPriorConcatenated := "z xy", article := "", fromArticle := [],
    document := "doc" }

/-- A C9 witness mx sink. -/
def c9w_sinkm : Nat → Option String := fun _ => none

/-- The C9 witness mx document. -/
def c9w_doc : MxDocument :=
  { name := "d", tipo := "t", onlyContent := true,
    paragraphs_by_bold := [⟨"wxyz", "", "A", "B"⟩] }

/-- The object list the C9 witness mx run hands to the sink. -/
def c9w_obj : MxProps :=
  { content := "wxyz", priorContent := "", contentAndPriorConcatenated := "wxyz",
    article := "", fromArticle := [], document := "d", tipo := "t" }

/-- C9 witness: the flushed batches of two concrete runs are non-empty. -/
theorem C9_no_empty_sink_call_witness :
    ([c9w_props] : List StProps) ≠ [] ∧ ([c9w_obj] : List MxProps) ≠ [] :=
  ⟨(C9_no_empty_sink_call c9w_sink "doc" c9w_lines c9w_sinkm c9w_doc "f").2.2.1
      [c9w_props] (by decide),
   (C9_no_empty_sink_call c9w_sink "doc" c9w_lines c9w_sinkm c9w_doc "f").2.2.2
      [c9w_obj] (by decide)⟩

/-! ## C7 -/

/-- The record balance of the state script: records accounted for in the
counters plus records still pending in the accumulator. -/
def stbal (st : StateSt) : Nat :=
  st.imported + st.failed + st.current_batch.length

/-- Lemma: `send_batch` moves the whole batch into the counters. -/
theorem state_send_batch_bal (sink : Nat → BatchOutcome) (batch : List StProps)
    (st : StateSt) :
    stbal (state_send_batch sink batch st) = stbal st + batch.length := by
  unfold stbal
  rw [state_send_batch_current]
  have h := state_send_batch_counts sink batch st
  omega

/-- Each accumulator step accounts for exactly the one record it consumed. -/
theorem state_accum_bal (sink : Nat → BatchOutcome) (props : StProps) (w : Nat)
    (st : StateSt) :
    stbal (state_accum sink props w st) = stbal st + 1 ∧
    (state_accum sink props w st).processed = st.processed := by
  unfold state_accum
  by_cases hbig : w > MAX_BATCH_TOKENS_STATE
  · rw [if_pos hbig]
    by_cases hcb : st.current_batch = []
    · rw [if_neg (by simp [hcb])]
      refine ⟨?_, state_send_batch_processed sink [props] st⟩
      rw [state_send_batch_bal]
      simp
    · rw [if_pos hcb]
      constructor
      · rw [state_send_batch_bal]
        have h1 := state_send_batch_counts sink st.current_batch st
        simp only [stbal, List.length_cons, List.length_nil]
        omega
      · rw [state_send_batch_processed]
        exact state_send_batch_processed sink st.current_batch st
  · rw [if_neg hbig]
    by_cases hover : st.current_tokens + w > MAX_BATCH_TOKENS_STATE
    · rw [if_pos hover]
      constructor
      · have h1 := state_send_batch_counts sink st.current_batch st
        simp only [stbal, List.length_cons, List.length_nil]
        omega
      · exact state_send_batch_processed sink st.current_batch st
    · rw [if_neg hover]
      constructor
      · simp [stbal]
        omega
      · rfl

/-- The per-chunk step advances both the balance and the processed count by
one. -/
theorem state_step_count (sink : Nat → BatchOutcome) (article : String)
    (from_article : List String) (document : String) (st : StateSt) (ch : Chunk)
    (h : stbal st = st.processed) :
    stbal (state_step sink article from_article document st ch) =
      (state_step sink article from_article document st ch).processed := by
  unfold state_step
  have hb := state_accum_bal sink
    { content := ch.content, priorContent := ch.priorContent,
      contentAndPriorConcatenated := py_strip (ch.priorContent ++ " " ++ ch.content),
      article := article, fromArticle := from_article, document := document }
    (approx_tokens ch.content) { st with processed := st.processed + 1 }
  rw [hb.1, hb.2]
  simp only [stbal] at h ⊢
  simp
  omega

/-- The per-line step keeps the balance equal to the processed count. -/
theorem state_line_count (sink : Nat → BatchOutcome) (document : String)
    (st : StateSt) (line : Option LineData) (h : stbal st = st.processed) :
    stbal (state_process_line sink document st line) =
      (state_process_line sink document st line).processed := by
  cases line with
  | none => exact h
  | some data =>
      exact list_foldl_inv (fun s => stbal s = s.processed) _
        (fun s c hs => state_step_count sink _ _ document s c hs) data.chunks st h

/-- Lemma: `insert_batch_with_retry` reports every item as inserted or failed. -/
theorem mx_insert_counts (sink : Nat → Option String) (calls : Nat)
    (items : List MxItem) (delay : Nat) :
    (insert_batch_with_retry sink calls items delay).fst.inserted +
      (insert_batch_with_retry sink calls items delay).fst.failed = items.length := by
  unfold insert_batch_with_retry
  cases hout : sink calls with
  | none => simp
  | some e1 =>
      cases hout2 : sink (calls + 1) with
      | none => simp
      | some e2 => simp

/-- The record balance of an mx document run. -/
def mxbal (st : MxDocSt) : Nat :=
  st.chunks_inserted + st.chunks_failed + st.current_batch.length

/-- Lemma: `mx_flush` moves the whole item batch into the counters. -/
theorem mx_flush_bal (sink : Nat → Option String) (items : List MxItem)
    (st : MxDocSt) :
    mxbal (mx_flush sink items st) = mxbal st + items.length := by
  unfold mxbal mx_flush
  have h := mx_insert_counts sink st.calls items default_retry_delay
  simp only []
  omega

/-- Each mx accumulator step accounts for exactly the one item it consumed. -/
theorem mx_accum_bal (sink : Nat → Option String) (st : MxDocSt) (item : MxItem) :
    mxbal (mx_accum sink st item) = mxbal st + 1 := by
  unfold mx_accum
  by_cases hb1 : st.current_batch ≠ [] ∧
      st.current_batch_tokens + item.token_count > MAX_BATCH_TOKENS_MX
  · rw [if_pos hb1]
    have h := mx_flush_bal sink st.current_batch st
    simp only [mxbal, List.length_cons, List.length_nil] at h ⊢
    rw [mx_flush_current] at h
    omega
  · rw [if_neg hb1]
    by_cases hb2 : item.token_count > MAX_BATCH_TOKENS_MX
    · rw [if_pos hb2]
      by_cases hcb : st.current_batch ≠ []
      · rw [if_pos hcb]
        rw [mx_flush_bal]
        have h := mx_flush_bal sink st.current_batch st
        simp only [mxbal, List.length_cons, List.length_nil] at h ⊢
        rw [mx_flush_current] at h
        omega
      · rw [if_neg hcb]
        rw [mx_flush_bal]
        simp
    · rw [if_neg hb2]
      simp [mxbal]
      omega

/-- The per-paragraph step accounts for its paragraph. -/
theorem mx_step_count (sink : Nat → Option String) (dn dt : String) (oc : Bool)
    (fn : String) (st : MxDocSt) (p : Paragraph) (n : Nat) (h : mxbal st = n) :
    mxbal (mx_step sink dn dt oc fn st p) = n + 1 := by
  unfold mx_step
  rw [mx_accum_bal, h]

/-- C7: at the end of a state-script run, `imported + failed = processed`,
the number of chunks coming from lines that parsed; and an mx document run
reports `inserted + failed` equal to the number of its paragraphs. -/
theorem C7_imported_failed_conservation (sink : Nat → BatchOutcome)
    (document : String) (lines : List (Option LineData))
    (sinkm : Nat → Option String) (doc : MxDocument) (file_name : String) :
    (state_run sink document lines).imported + (state_run sink document lines).failed =
      (state_run sink document lines).processed ∧
    (mx_process_document sinkm doc file_name).chunks_inserted +
        (mx_process_document sinkm doc file_name).chunks_failed =
      doc.paragraphs_by_bold.length := by
  constructor
  · have hinv : stbal (lines.foldl (state_process_line sink document) StateSt.init) =
        (lines.foldl (state_process_line sink document) StateSt.init).processed :=
      list_foldl_inv (fun s => stbal s = s.processed) _
        (fun s l hs => state_line_count sink document s l hs) lines StateSt.init rfl
    unfold state_run
    by_cases hcb : (lines.foldl (state_process_line sink document) StateSt.init).current_batch = []
    · rw [if_neg (by simp [hcb])]
      simp only [stbal, hcb, List.length_nil, Nat.add_zero] at hinv
      exact hinv
    · rw [if_pos hcb]
      have hc := state_send_batch_counts sink
        (lines.foldl (state_process_line sink document) StateSt.init).current_batch
        (lines.foldl (state_process_line sink document) StateSt.init)
      have hp := state_send_batch_processed sink
        (lines.foldl (state_process_line sink document) StateSt.init).current_batch
        (lines.foldl (state_process_line sink document) StateSt.init)
      rw [hc, hp]
      simp only [stbal] at hinv
      omega
  · have hinv : mxbal (doc.paragraphs_by_bold.foldl
        (mx_step sinkm doc.name doc.tipo doc.onlyContent file_name) MxDocSt.init) =
        0 + doc.paragraphs_by_bold.length :=
      list_foldl_count (fun s n => mxbal s = n) _
        (fun s p n hs => mx_step_count sinkm _ _ _ _ s p n hs)
        doc.paragraphs_by_bold MxDocSt.init 0 rfl
    unfold mx_process_document
    by_cases hcb : (doc.paragraphs_by_bold.foldl
        (mx_step sinkm doc.name doc.tipo doc.onlyContent file_name) MxDocSt.init).current_batch = []
    · rw [if_neg (by simp [hcb])]
      simp only [mxbal, hcb, List.length_nil, Nat.add_zero, Nat.zero_add] at hinv
      exact hinv
    · rw [if_pos hcb]
      have hb := mx_flush_bal sinkm
        ((doc.paragraphs_by_bold.foldl
          (mx_step sinkm doc.name doc.tipo doc.onlyContent file_name) MxDocSt.init).current_batch)
        (doc.paragraphs_by_bold.foldl
          (mx_step sinkm doc.name doc.tipo doc.onlyContent file_name) MxDocSt.init)
      simp only [mxbal, mx_flush_current] at hb hinv
      omega

/-! ## C3 -/

/-- C3 (amended): in the mx loader, when the first `insert_many` attempt
raises, the insertion is retried exactly once after the fixed `retry_delay`
(default 60 seconds, which is what `process_document` passes); if the retry
also raises, every record of the batch yields exactly one failure-log entry
carrying the exception message and the source file name (the entries record
no batch number), the batch's imported count is 0 and the whole batch counts
as failed, and the call returns so processing continues with the next
batch; if the retry succeeds, the whole batch counts as imported and
nothing is logged. -/
theorem C3_retry_once_then_log_all (sink : Nat → Option String) (calls : Nat)
    (items : List MxItem) (delay : Nat) (e1 : String)
    (h1 : sink calls = some e1) :
    default_retry_delay = 60 ∧
    (∀ e2, sink (calls + 1) = some e2 →
      (insert_batch_with_retry sink calls items delay).fst.inserted = 0 ∧
      (insert_batch_with_retry sink calls items delay).fst.failed = items.length ∧
      (insert_batch_with_retry sink calls items delay).fst.log =
        items.map (error_info e2) ∧
      (insert_batch_with_retry sink calls items delay).fst.log.length = items.length ∧
      (insert_batch_with_retry sink calls items delay).fst.slept = [delay] ∧
      (insert_batch_with_retry sink calls items delay).snd = calls + 2 ∧
      ∀ item ∈ items, ("error", PyVal.s e2) ∈ error_info e2 item ∧
        ("file", PyVal.s item.file_name) ∈ error_info e2 item) ∧
    (sink (calls + 1) = none →
      (insert_batch_with_retry sink calls items delay).fst.inserted = items.length ∧
      (insert_batch_with_retry sink calls items delay).fst.failed = 0 ∧
      (insert_batch_with_retry sink calls items delay).fst.log = [] ∧
      (insert_batch_with_retry sink calls items delay).fst.slept = [delay] ∧
      (insert_batch_with_retry sink calls items delay).snd = calls + 2) := by
  refine ⟨rfl, ?_, ?_⟩
  · intro e2 h2
    unfold insert_batch_with_retry
    simp only [h1, h2]
    simp [error_info]
  · intro h2
    unfold insert_batch_with_retry
    simp only [h1, h2]
    simp

/-- The paragraph of the C3 witness items. -/
def c3w_para : Paragraph := ⟨"content", "", "name", ""⟩

/-- One C3 witness batch item. -/
def c3w_item : MxItem :=
  { obj := { content := "content", priorContent := "",
             contentAndPriorConcatenated := "content", article := "name",
             fromArticle := [], document := "d", tipo := "t" },
    article := "name", token_count := 1, paragraph := c3w_para,
    document_name := "d", document_tipo := "t", file_name := "f.json" }

/-- The C3 witness batch: five records. -/
def c3w_items : List MxItem := List.replicate 5 c3w_item

/-- A sink that raises on every attempt. -/
def c3w_sink : Nat → Option String := fun _ => some "connection reset by peer"

/-- C3 witness: both-attempts-fail at a concrete batch of five records. -/
theorem C3_retry_once_then_log_all_witness :
    (insert_batch_with_retry c3w_sink 0 c3w_items 60).fst.inserted = 0 ∧
    (insert_batch_with_retry c3w_sink 0 c3w_items 60).fst.failed = c3w_items.length ∧
    (insert_batch_with_retry c3w_sink 0 c3w_items 60).fst.log =
      c3w_items.map (error_info "connection reset by peer") ∧
    (insert_batch_with_retry c3w_sink 0 c3w_items 60).fst.log.length =
      c3w_items.length ∧
    (insert_batch_with_retry c3w_sink 0 c3w_items 60).fst.slept = [60] ∧
    (insert_batch_with_retry c3w_sink 0 c3w_items 60).snd = 0 + 2 ∧
    ∀ item ∈ c3w_items,
      ("error", PyVal.s "connection reset by peer") ∈
        error_info "connection reset by peer" item ∧
      ("file", PyVal.s item.file_name) ∈
        error_info "connection reset by peer" item :=
  (C3_retry_once_then_log_all c3w_sink 0 c3w_items 60 "connection reset by peer"
    (by decide)).2.1 "connection reset by peer" (by decide)

/-- C3 counterexample: for a batch of five records failing both attempts in
the mx loader, the five failure-log entries have exactly the keys
error/chunk/document/tipo/file — none carries a batch number (the claim
asserts entries carry the batch number). -/
theorem C3_counterexample :
    ((insert_batch_with_retry c3w_sink 0 (List.replicate 5 c3w_item) 60).fst.log.map
        (fun en => en.map Prod.fst)) =
      List.replicate 5 ["error", "chunk", "document", "tipo", "file"] ∧
    (insert_batch_with_retry c3w_sink 0 (List.replicate 5 c3w_item) 60).fst.log.length = 5 ∧
    (insert_batch_with_retry c3w_sink 0 (List.replicate 5 c3w_item) 60).fst.inserted = 0 := by
  exact ⟨by decide, by decide, by decide⟩

/-! ## C5 -/

/-- The C5 scenario sink: every insert raises the disk-space message. -/
def c5a_sink : Int → BatchOutcome :=
  fun _ => .exception "disk usage too high on node weaviate-0"

/-- The C5 scenario input: one parsed line with an oversized chunk followed
by another chunk. -/
def c5a_lines : List (Option LineData) :=
  [some { fields := [("parent_0", "T1")], chunks := [⟨"aaaaaaaa", ""⟩, ⟨"bb", ""⟩] }]

/-- The properties object of the oversized chunk of the C5 scenario. -/
def c5a_props : StProps :=
  { content := "aaaaaaaa", priorContent := "",
    contentAndPriorConcatenated := "aaaaaaaa", article := "T1",
    fromArticle := [], document := "doc" }

/-- C5 (amended): in the OllamaV2 loader, a batch-insert exception whose
message matches the read-only/over-capacity pattern is re-raised:
`send_batch_to_weaviate` propagates the exception after counting the batch
as failed, writing no failure-log entries for it; and a whole OllamaV2 run
aborts at such a batch, never attempting a further one (shown on a concrete
run where a second chunk was still pending).  The newer state-collection
loader has no such check (see the counterexample). -/
theorem C5_fatal_pattern_aborts (sink : Int → BatchOutcome) (batch : List StProps)
    (bn : Int) (st : OllSt) (e : String) (hb : batch ≠ [])
    (hout : sink bn = .exception e) (hpat : disk_error_check e = true) :
    (send_batch_to_weaviate sink batch bn st =
      .error (e, { st with sink_batches := st.sink_batches ++ [batch],
                           failed := st.failed + batch.length })) ∧
    process_jsonl_file c5a_sink c5a_lines "doc" 1 =
      .error ("disk usage too high on node weaviate-0",
        { processed := 1, imported := 0, failed := 1, batches := 1,
          objects := [], tokens := 0, sink_batches := [[c5a_props]],
          failure_log := [] }) := by
  constructor
  · unfold send_batch_to_weaviate
    simp [hb, hout, hpat]
  · decide

/-- A C5 witness batch. -/
def c5w_props : StProps :=
  { content := "w", priorContent := "", contentAndPriorConcatenated := "w",
    article := "", fromArticle := [], document := "doc" }

/-- A C5 witness sink raising a read-only message. -/
def c5w_sink : Int → BatchOutcome :=
  fun _ => .exception "database is READ-ONLY: disk usage too high"

/-- C5 witness: the amended theorem at a concrete batch and state. -/
theorem C5_fatal_pattern_aborts_witness :
    (send_batch_to_weaviate c5w_sink [c5w_props] 1 OllSt.init =
      .error ("database is READ-ONLY: disk usage too high",
        { OllSt.init with
            sink_batches := OllSt.init.sink_batches ++ [[c5w_props]],
            failed := OllSt.init.failed + ([c5w_props] : List StProps).length })) ∧
    process_jsonl_file c5a_sink c5a_lines "doc" 1 =
      .error ("disk usage too high on node weaviate-0",
        { processed := 1, imported := 0, failed := 1, batches := 1,
          objects := [], tokens := 0, sink_batches := [[c5a_props]],
          failure_log := [] }) :=
  C5_fatal_pattern_aborts c5w_sink [c5w_props] 1 OllSt.init
    "database is READ-ONLY: disk usage too high" (by decide) (by decide) (by decide)

/-- The two records of the C5 counterexample run. -/
def c5x_p : StProps :=
  { content := "p", priorContent := "", contentAndPriorConcatenated := "p",
    article := "", fromArticle := [], document := "doc" }

/-- The oversized record of the C5 counterexample run (weight 137000,
corresponding to a content of 548000 characters). -/
def c5x_q : StProps :=
  { content := "q", priorContent := "", contentAndPriorConcatenated := "q",
    article := "", fromArticle := [], document := "doc" }

/-- A sink raising a read-only exception for batch 1 and succeeding after. -/
def c5x_sink : Nat → BatchOutcome :=
  fun b => if b = 1 then .exception "Database is read-only" else .completed []

/-- The C5 counterexample run of the state-collection accumulator: a pending
record of weight 30000, then an oversized record of weight 137000, under
the sink above. -/
def c5x_run : StateSt :=
  state_accum c5x_sink c5x_q 137000 (state_accum c5x_sink c5x_p 30000 StateSt.init)

/-- C5 counterexample: in the state-collection loader
(batchAddStateCollection.py send_batch has no pattern check), the
read-only exception on batch 1 is logged like any transient failure and the
run continues — batch 2 is attempted and imported, so the exception did not
abort the run as the claim states. -/
theorem C5_counterexample :
    disk_error_check "Database is read-only" = true ∧
    c5x_run.batches = 2 ∧
    c5x_run.flushed = [[c5x_p], [c5x_q]] ∧
    c5x_run.imported = 1 ∧
    c5x_run.failed = 1 ∧
    c5x_run.failure_log = [⟨"Database is read-only", c5x_p, 1⟩] := by
  exact ⟨by decide, by decide, by decide, by decide, by decide, by decide⟩

/-! ## C6 -/

/-- C6 (amended): in the OllamaV2 loader, a bulk insert that completes but
reports rejected objects performs no retry — the sink is contacted exactly
once for the batch: each rejected object is logged individually with the
batch number and its message, the failed count increases by exactly the
number of rejected objects, and the accepted remainder
(`batch_size - len(failed_objects)`) is counted as imported. -/
theorem C6_rejected_records_logged (sink : Int → BatchOutcome)
    (batch : List StProps) (bn : Int) (st : OllSt) (fs : List FailedObject)
    (hb : batch ≠ []) (hout : sink bn = .completed fs) (hfs : fs ≠ []) :
    send_batch_to_weaviate sink batch bn st =
      .ok { st with
              sink_batches := st.sink_batches ++ [batch],
              failed := st.failed + fs.length,
              failure_log := st.failure_log ++
                fs.map (fun f => ⟨f.message, f.properties, bn⟩),
              imported := st.imported + ((batch.length : Int) - (fs.length : Int)) } := by
  unfold send_batch_to_weaviate
  simp [hb, hout, hfs]

/-- The accepted record of the C6 witness batch. -/
def c6w_p : StProps :=
  { content := "ok", priorContent := "", contentAndPriorConcatenated := "ok",
    article := "", fromArticle := [], document := "doc" }

/-- The rejected record of the C6 witness batch. -/
def c6w_q : StProps :=
  { content := "bad", priorContent := "", contentAndPriorConcatenated := "bad",
    article := "", fromArticle := [], document := "doc" }

/-- A sink completing with one rejected object. -/
def c6w_sink : Int → BatchOutcome :=
  fun _ => .completed [⟨"vector too long", c6w_q⟩]

/-- C6 witness: the amended theorem at a batch of two records with one
rejected. -/
theorem C6_rejected_records_logged_witness :
    send_batch_to_weaviate c6w_sink [c6w_p, c6w_q] 3 OllSt.init =
      .ok { OllSt.init with
              sink_batches := OllSt.init.sink_batches ++ [[c6w_p, c6w_q]],
              failed := OllSt.init.failed +
                ([(⟨"vector too long", c6w_q⟩ : FailedObject)] : List FailedObject).length,
              failure_log := OllSt.init.failure_log ++
                ([(⟨"vector too long", c6w_q⟩ : FailedObject)] : List FailedObject).map
                  (fun f => ⟨f.message, f.properties, 3⟩),
              imported := OllSt.init.imported +
                ((([c6w_p, c6w_q] : List StProps).length : Int) -
                  ((([(⟨"vector too long", c6w_q⟩ : FailedObject)] : List FailedObject)).length : Int)) } :=
  C6_rejected_records_logged c6w_sink [c6w_p, c6w_q] 3 OllSt.init
    [⟨"vector too long", c6w_q⟩] (by decide) (by decide) (by decide)

/-- A sink for the C6 counterexample, reporting one rejected object. -/
def c6x_sink : Nat → BatchOutcome :=
  fun _ => .completed [⟨"vector too long",
    { content := "bad", priorContent := "", contentAndPriorConcatenated := "bad",
      article := "", fromArticle := [], document := "doc" }⟩]

/-- C6 counterexample: the state-collection loader
(batchAddStateCollection.py:61-67) never inspects the partial-failure
report: on a batch of two records of which the sink rejected one, it counts
both as imported, increases the failed count by 0, and logs nothing —
contrary to the claim. -/
theorem C6_counterexample :
    (state_send_batch c6x_sink [c6w_p, c6w_q] StateSt.init).imported = 2 ∧
    (state_send_batch c6x_sink [c6w_p, c6w_q] StateSt.init).failed = 0 ∧
    (state_send_batch c6x_sink [c6w_p, c6w_q] StateSt.init).failure_log = [] := by
  exact ⟨by decide, by decide, by decide⟩

/-! ## C4 -/

/-- Position `j` of the phase-1 uuid map holds `some (i + j)` when article
`j`'s stripped content is non-empty, and `none` otherwise. -/
theorem mx_phase1_get (d : String) :
    ∀ (l : List ArticleData) (i j : Nat) (a : ArticleData), l.get? j = some a →
      (mx_phase1 d i l).fst.get? j =
        some (if py_strip a.full_content ≠ "" then some (i + j) else none) := by
  intro l
  induction l with
  | nil => intro i j a h; simp at h
  | cons hd tl ih =>
      intro i j a h
      cases j with
      | zero =>
          simp only [List.get?_cons_zero, Option.some.injEq] at h
          subst h
          by_cases hc : py_strip hd.full_content ≠ ""
          · simp only [mx_phase1]
            rw [if_pos hc, if_pos hc]
            simp
          · simp only [mx_phase1]
            rw [if_neg hc, if_neg hc]
            simp
      | succ j =>
          simp only [List.get?_cons_succ] at h
          have hih := ih (i + 1) j a h
          have harith : i + 1 + j = i + (j + 1) := by omega
          rw [harith] at hih
          by_cases hc : py_strip hd.full_content ≠ ""
          · simp only [mx_phase1]
            rw [if_pos hc]
            simpa using hih
          · simp only [mx_phase1]
            rw [if_neg hc]
            simpa using hih

/-- Every article inserted by phase 1 sits at a non-empty-content position,
and its identifier records that position. -/
theorem mx_phase1_uuid_mem (d : String) :
    ∀ (l : List ArticleData) (i : Nat) (ia : InsertedArticle),
      ia ∈ (mx_phase1 d i l).snd →
      ∃ j a, l.get? j = some a ∧ ia.uuid = i + j ∧ py_strip a.full_content ≠ "" := by
  intro l
  induction l with
  | nil => intro i ia h; simp [mx_phase1] at h
  | cons hd tl ih =>
      intro i ia h
      by_cases hc : py_strip hd.full_content ≠ ""
      · simp only [mx_phase1] at h
        rw [if_pos hc] at h
        rcases List.mem_cons.mp h with heq | hmem
        · refine ⟨0, hd, by simp, ?_, hc⟩
          rw [heq]
          simp
        · obtain ⟨j, a, hj, hu, hne⟩ := ih (i + 1) ia hmem
          exact ⟨j + 1, a, by simpa using hj, by rw [hu]; omega, hne⟩
      · simp only [mx_phase1] at h
        rw [if_neg hc] at h
        obtain ⟨j, a, hj, hu, hne⟩ := ih (i + 1) ia h
        exact ⟨j + 1, a, by simpa using hj, by rw [hu]; omega, hne⟩

/-- Every non-empty-content article is inserted by phase 1 with its position
as identifier. -/
theorem mx_phase1_mem_of (d : String) :
    ∀ (l : List ArticleData) (i j : Nat) (a : ArticleData), l.get? j = some a →
      py_strip a.full_content ≠ "" →
      ({ content := a.full_content, article := mx_article_name (i + j) a,
         document := d, uuid := i + j } : InsertedArticle) ∈ (mx_phase1 d i l).snd := by
  intro l
  induction l with
  | nil => intro i j a h _; simp at h
  | cons hd tl ih =>
      intro i j a h hne
      cases j with
      | zero =>
          simp only [List.get?_cons_zero, Option.some.injEq] at h
          subst h
          simp only [mx_phase1]
          rw [if_pos hne]
          simp
      | succ j =>
          simp only [List.get?_cons_succ] at h
          have hih := ih (i + 1) j a h hne
          have harith : i + 1 + j = i + (j + 1) := by omega
          rw [harith] at hih
          by_cases hc : py_strip hd.full_content ≠ ""
          · simp only [mx_phase1]
            rw [if_pos hc]
            exact List.mem_cons_of_mem _ hih
          · simp only [mx_phase1]
            rw [if_neg hc]
            exact hih

/-- Every sub-chunk of article `j` is inserted by phase 2 carrying the
uuid-map entry for position `i + j` as its optional reference. -/
theorem mx_phase2_mem (tp d : String) (uuids : List (Option Nat)) :
    ∀ (l : List ArticleData) (i j : Nat) (a : ArticleData) (c : SubChunk),
      l.get? j = some a → c ∈ a.sub_chunks →
      ({ content := c.content, article := c.name, tipo := tp, document := d,
         start_offset := c.start_offset,
         source_article := (uuids.get? (i + j)).getD none } : InsertedChunk) ∈
        mx_phase2 tp d uuids i l := by
  intro l
  induction l with
  | nil => intro i j a c h _; simp at h
  | cons hd tl ih =>
      intro i j a c h hc
      cases j with
      | zero =>
          simp only [List.get?_cons_zero, Option.some.injEq] at h
          subst h
          simp only [mx_phase2]
          refine List.mem_append.mpr (Or.inl ?_)
          simp only [Nat.add_zero]
          exact List.mem_map.mpr ⟨c, hc, rfl⟩
      | succ j =>
          simp only [List.get?_cons_succ] at h
          have hih := ih (i + 1) j a c h hc
          have harith : i + 1 + j = i + (j + 1) := by omega
          rw [harith] at hih
          simp only [mx_phase2]
          exact List.mem_append.mpr (Or.inr hih)

/-- Phase 2 inserts exactly one chunk per sub-chunk of the input. -/
theorem mx_phase2_length (tp d : String) (uuids : List (Option Nat)) :
    ∀ (l : List ArticleData) (i : Nat),
      (mx_phase2 tp d uuids i l).length =
        (l.map (fun x => x.sub_chunks.length)).sum := by
  intro l
  induction l with
  | nil => intro i; simp [mx_phase2]
  | cons hd tl ih =>
      intro i
      simp only [mx_phase2]
      simp [List.length_append, ih (i + 1)]

/-- C4 (amended): in the mx two-phase loader, an article with empty
(stripped) primary content is not inserted and its identifier is recorded
as absent, no phase-1 insertion carries its index, and its sub-chunks are
inserted without a reference; an article with non-empty content is inserted
with its index as identifier and its sub-chunks are inserted carrying the
reference to it; and every sub-chunk of the document is inserted (no chunk
is dropped or fails).  The federal two-phase loader does not behave this
way (see the counterexample). -/
theorem C4_two_phase_loader (doc : PopDocument) (idx : Nat) (a : ArticleData)
    (h : doc.articles.get? idx = some a) :
    (py_strip a.full_content = "" →
      (populate_collections_batch doc).fst.get? idx = some none ∧
      (∀ ia ∈ (populate_collections_batch doc).snd.fst, ia.uuid ≠ idx) ∧
      ∀ c ∈ a.sub_chunks,
        ({ content := c.content, article := c.name, tipo := doc.tipo,
           document := doc.document_name, start_offset := c.start_offset,
           source_article := none } : InsertedChunk) ∈
          (populate_collections_batch doc).snd.snd) ∧
    (py_strip a.full_content ≠ "" →
      (populate_collections_batch doc).fst.get? idx = some (some idx) ∧
      ({ content := a.full_content, article := mx_article_name idx a,
         document := doc.document_name, uuid := idx } : InsertedArticle) ∈
        (populate_collections_batch doc).snd.fst ∧
      ∀ c ∈ a.sub_chunks,
        ({ content := c.content, article := c.name, tipo := doc.tipo,
           document := doc.document_name, start_offset := c.start_offset,
           source_article := some idx } : InsertedChunk) ∈
          (populate_collections_batch doc).snd.snd) ∧
    (populate_collections_batch doc).snd.snd.length =
      (doc.articles.map (fun x => x.sub_chunks.length)).sum := by
  have hget := mx_phase1_get doc.document_name doc.articles 0 idx a h
  simp only [Nat.zero_add] at hget
  refine ⟨?_, ?_, ?_⟩
  · intro hempty
    have hcond : ¬ py_strip a.full_content ≠ "" := by simp [hempty]
    rw [if_neg hcond] at hget
    refine ⟨hget, ?_, ?_⟩
    · intro ia hia heq
      obtain ⟨j, a', hj, hu, hne⟩ :=
        mx_phase1_uuid_mem doc.document_name doc.articles 0 ia hia
      rw [heq] at hu
      have hj' : j = idx := by omega
      subst hj'
      rw [h] at hj
      injection hj with hj
      subst hj
      exact hne hempty
    · intro c hc
      have hmem := mx_phase2_mem doc.tipo doc.document_name
        (mx_phase1 doc.document_name 0 doc.articles).fst doc.articles 0 idx a c h hc
      simp only [Nat.zero_add, hget, Option.getD_some] at hmem
      exact hmem
  · intro hne
    rw [if_pos hne] at hget
    refine ⟨hget, ?_, ?_⟩
    · have hmem := mx_phase1_mem_of doc.document_name doc.articles 0 idx a h hne
      simpa using hmem
    · intro c hc
      have hmem := mx_phase2_mem doc.tipo doc.document_name
        (mx_phase1 doc.document_name 0 doc.articles).fst doc.articles 0 idx a c h hc
      simp only [Nat.zero_add, hget, Option.getD_some] at hmem
      exact hmem
  · exact mx_phase2_length doc.tipo doc.document_name
      (mx_phase1 doc.document_name 0 doc.articles).fst doc.articles 0

/-- The sub-chunk of the C4 witness's non-empty article. -/
def c4w_chunkA : SubChunk := ⟨"Art. 1", "first chunk", 0⟩

/-- The sub-chunk of the C4 witness's empty article. -/
def c4w_chunkB : SubChunk := ⟨"Art. 2", "second chunk", 5⟩

/-- The non-empty article of the C4 witness document. -/
def c4w_art1 : ArticleData := ⟨"full text", [c4w_chunkA]⟩

/-- The whitespace-only article of the C4 witness document. -/
def c4w_art2 : ArticleData := ⟨"   ", [c4w_chunkB]⟩

/-- The C4 witness document. -/
def c4w_doc : PopDocument :=
  { document_name := "ley", tipo := "reg", articles := [c4w_art1, c4w_art2] }

/-- C4 witness: the theorem applied to the witness document at both the
empty-content article (index 1) and the non-empty one (index 0). -/
theorem C4_two_phase_loader_witness :
    ((populate_collections_batch c4w_doc).fst.get? 1 = some none ∧
      (∀ ia ∈ (populate_collections_batch c4w_doc).snd.fst, ia.uuid ≠ 1) ∧
      ∀ c ∈ c4w_art2.sub_chunks,
        ({ content := c.content, article := c.name, tipo := c4w_doc.tipo,
           document := c4w_doc.document_name, start_offset := c.start_offset,
           source_article := none } : InsertedChunk) ∈
          (populate_collections_batch c4w_doc).snd.snd) ∧
    ((populate_collections_batch c4w_doc).fst.get? 0 = some (some 0) ∧
      ({ content := c4w_art1.full_content, article := mx_article_name 0 c4w_art1,
         document := c4w_doc.document_name, uuid := 0 } : InsertedArticle) ∈
        (populate_collections_batch c4w_doc).snd.fst ∧
      ∀ c ∈ c4w_art1.sub_chunks,
        ({ content := c.content, article := c.name, tipo := c4w_doc.tipo,
           document := c4w_doc.document_name, start_offset := c.start_offset,
           source_article := some 0 } : InsertedChunk) ∈
          (populate_collections_batch c4w_doc).snd.snd) :=
  ⟨(C4_two_phase_loader c4w_doc 1 c4w_art2 (by decide)).1 (by decide),
   (C4_two_phase_loader c4w_doc 0 c4w_art1 (by decide)).2.1 (by decide)⟩

/-- The single article of the C4 counterexample input: empty primary
content, with one sub-chunk. -/
def c4x_fed_articles : List FedArticleData :=
  [⟨"", "Art1", [⟨"Art1", "text", 0⟩]⟩]

/-- C4 counterexample: the federal two-phase loader
(us/federal/populateCollections.py:43-52) inserts an article whose primary
content is empty — and its chunk is inserted carrying a reference to it —
contradicting the claim that an empty-content article is not inserted and
that chunks of such a parent carry no reference. -/
theorem C4_counterexample :
    (fed_populate_collections_batch "cfr" c4x_fed_articles).snd.fst =
      [{ content := "", article := "Art1", document := "cfr", uuid := 0 }] ∧
    (fed_populate_collections_batch "cfr" c4x_fed_articles).snd.snd =
      [{ content := "text", article := "Art1", document := "cfr",
         start_offset := 0, source_article := 0 }] := by
  exact ⟨by decide, by decide⟩

end WeaPro
